import Mathlib

/-!
A verification development for `pkg/scheduler/apis/config/v1/defaults.go`:
the configuration-defaulting pass of the kube-scheduler `v1` configuration API.

External collaborators that the source consumes but does not define
(`mergePlugins`, `getDefaultPlugins`, the plugin-argument conversion scheme,
the feature gate, the recommended leader-election defaults) are taken either as
parameters or as definitions modelled from their interface contracts; the rest
is translated directly from the source file.
-/

namespace KubeSchedV1

/-- A plugin reference at an extension point (`configv1.Plugin`): a `Name` and an
optional `Weight`. -/
structure Plugin where
  name : String
  weight : Option Int := none
deriving DecidableEq

/-- The enabled/disabled plugin lists of one extension point (`configv1.PluginSet`). -/
structure PluginSet where
  enabled : List Plugin := []
  disabled : List Plugin := []
deriving DecidableEq

/-- The twelve extension points of a scheduling pipeline (`configv1.Plugins`),
listed in the order `pluginsNames` iterates them. -/
structure Plugins where
  multiPoint : PluginSet := {}
  preFilter : PluginSet := {}
  filter : PluginSet := {}
  postFilter : PluginSet := {}
  reserve : PluginSet := {}
  preScore : PluginSet := {}
  score : PluginSet := {}
  preBind : PluginSet := {}
  bind : PluginSet := {}
  postBind : PluginSet := {}
  permit : PluginSet := {}
  queueSort : PluginSet := {}
deriving DecidableEq

/-- Arguments of the DefaultPreemption plugin (`configv1.DefaultPreemptionArgs`);
only the fields touched by the defaulting code are modelled. -/
structure DefaultPreemptionArgs where
  minCandidateNodesPercentage : Option Int := none
  minCandidateNodesAbsolute : Option Int := none
deriving DecidableEq

/-- Arguments of the InterPodAffinity plugin (`configv1.InterPodAffinityArgs`). -/
structure InterPodAffinityArgs where
  hardPodAffinityWeight : Option Int := none
deriving DecidableEq

/-- One point of a scoring shape (`configv1.UtilizationShapePoint`). -/
structure UtilizationShapePoint where
  utilization : Int
  score : Int
deriving DecidableEq

/-- Arguments of the VolumeBinding plugin (`configv1.VolumeBindingArgs`). -/
structure VolumeBindingArgs where
  bindTimeoutSeconds : Option Int := none
  shape : List UtilizationShapePoint := []
deriving DecidableEq

/-- A resource name paired with a scoring weight (`configv1.ResourceSpec`);
`Weight` is a plain integer, so `0` is its unset value. -/
structure ResourceSpec where
  name : String
  weight : Int
deriving DecidableEq

/-- Arguments of the NodeResourcesBalancedAllocation plugin
(`configv1.NodeResourcesBalancedAllocationArgs`). -/
structure NodeResourcesBalancedAllocationArgs where
  resources : List ResourceSpec := []
deriving DecidableEq

/-- Arguments of the PodTopologySpread plugin (`configv1.PodTopologySpreadArgs`);
only `DefaultingType` is touched by the defaulting code. -/
structure PodTopologySpreadArgs where
  defaultingType : String := ""
deriving DecidableEq

/-- A scoring strategy (`configv1.ScoringStrategy`): a strategy name and resources. -/
structure ScoringStrategy where
  type : String
  resources : List ResourceSpec := []
deriving DecidableEq

/-- Arguments of the NodeResourcesFit plugin (`configv1.NodeResourcesFitArgs`);
only `ScoringStrategy` is touched by the defaulting code. -/
structure NodeResourcesFitArgs where
  scoringStrategy : Option ScoringStrategy := none
deriving DecidableEq

/-- Modelled from the spec: the system default scheduler name constant
(`v1.DefaultSchedulerName`, from the external core API package). -/
def DefaultSchedulerName : String := "default-scheduler"

/-- Modelled from the spec: the package-level default for `PercentageOfNodesToScore`
(`config.DefaultPercentageOfNodesToScore`, declared outside the given file; the
spec leaves its value implementation-defined and no claim depends on it). -/
def DefaultPercentageOfNodesToScore : Int := 0

/-- Modelled from the spec: the fixed leader-election lock namespace constant
(`configv1.SchedulerDefaultLockObjectNamespace`, declared outside the given file). -/
def SchedulerDefaultLockObjectNamespace : String := "kube-system"

/-- Modelled from the spec: the fixed leader-election lock object name constant
(`configv1.SchedulerDefaultLockObjectName`, declared outside the given file). -/
def SchedulerDefaultLockObjectName : String := "kube-scheduler"

/-- Modelled from the spec: the system's maximum custom priority score
(`config.MaxCustomPriorityScore`, declared outside the given file). -/
def MaxCustomPriorityScore : Int := 10

/-- Modelled from the spec: the least-allocated scoring strategy name
(`config.LeastAllocated`, declared outside the given file). -/
def LeastAllocated : String := "LeastAllocated"

/-- Modelled from the spec: the system-defaulting constant
(`configv1.SystemDefaulting`, declared outside the given file). -/
def SystemDefaulting : String := "System"

/-- The `defaultResourceSpec` package variable: cpu and memory, each with weight 1. -/
def defaultResourceSpec : List ResourceSpec :=
  [{ name := "cpu", weight := 1 }, { name := "memory", weight := 1 }]

/-- `SetDefaults_DefaultPreemptionArgs`: fill both candidate-node fields when unset. -/
def SetDefaults_DefaultPreemptionArgs (obj : DefaultPreemptionArgs) : DefaultPreemptionArgs :=
  let obj :=
    if obj.minCandidateNodesPercentage = none then
      { obj with minCandidateNodesPercentage := some 10 }
    else obj
  if obj.minCandidateNodesAbsolute = none then
    { obj with minCandidateNodesAbsolute := some 100 }
  else obj

/-- `SetDefaults_InterPodAffinityArgs`: fill `HardPodAffinityWeight` when unset. -/
def SetDefaults_InterPodAffinityArgs (obj : InterPodAffinityArgs) : InterPodAffinityArgs :=
  if obj.hardPodAffinityWeight = none then { obj with hardPodAffinityWeight := some 1 } else obj

/-- `SetDefaults_VolumeBindingArgs`: fill `BindTimeoutSeconds` when unset; when the
`Shape` is empty and the `VolumeCapacityPriority` feature gate (consumed as the
boolean parameter `fg`, per the spec an opaque boolean oracle) is enabled, fill
the two-point default shape. -/
def SetDefaults_VolumeBindingArgs (fg : Bool) (obj : VolumeBindingArgs) : VolumeBindingArgs :=
  let obj := if obj.bindTimeoutSeconds = none then { obj with bindTimeoutSeconds := some 600 } else obj
  if obj.shape.length = 0 ∧ fg = true then
    { obj with shape :=
        [{ utilization := 0, score := 0 },
         { utilization := 100, score := MaxCustomPriorityScore }] }
  else obj

/-- `SetDefaults_NodeResourcesBalancedAllocationArgs`: an empty resource list becomes
`defaultResourceSpec`; otherwise every weight that is 0 becomes 1. -/
def SetDefaults_NodeResourcesBalancedAllocationArgs
    (obj : NodeResourcesBalancedAllocationArgs) : NodeResourcesBalancedAllocationArgs :=
  if obj.resources.length = 0 then { obj with resources := defaultResourceSpec }
  else
    { obj with resources :=
        obj.resources.map (fun r => if r.weight = 0 then { r with weight := 1 } else r) }

/-- `SetDefaults_PodTopologySpreadArgs`: fill `DefaultingType` when unset. -/
def SetDefaults_PodTopologySpreadArgs (obj : PodTopologySpreadArgs) : PodTopologySpreadArgs :=
  if obj.defaultingType = "" then { obj with defaultingType := SystemDefaulting } else obj

/-- `SetDefaults_NodeResourcesFitArgs`: fill a missing scoring strategy with
least-allocated over `defaultResourceSpec`; append `defaultResourceSpec` to an
empty resource list; then every weight that is 0 becomes 1. -/
def SetDefaults_NodeResourcesFitArgs (obj : NodeResourcesFitArgs) : NodeResourcesFitArgs :=
  let obj :=
    if obj.scoringStrategy = none then
      { obj with scoringStrategy := some { type := LeastAllocated, resources := defaultResourceSpec } }
    else obj
  match obj.scoringStrategy with
  | none => obj
  | some ss =>
    let ss := if ss.resources.length = 0 then { ss with resources := ss.resources ++ defaultResourceSpec } else ss
    let ss :=
      { ss with resources :=
          ss.resources.map (fun r => if r.weight = 0 then { r with weight := 1 } else r) }
    { obj with scoringStrategy := some ss }

/-- The payload of a typed plugin-argument object: one constructor per argument
type whose defaulting function is defined in the given file (these are the
functions `RegisterDefaults` registers on the conversion scheme). -/
inductive ArgsPayload where
  | defaultPreemption (a : DefaultPreemptionArgs)
  | interPodAffinity (a : InterPodAffinityArgs)
  | volumeBinding (a : VolumeBindingArgs)
  | nodeResourcesBalancedAllocation (a : NodeResourcesBalancedAllocationArgs)
  | podTopologySpread (a : PodTopologySpreadArgs)
  | nodeResourcesFit (a : NodeResourcesFitArgs)
deriving DecidableEq

/-- A plugin-argument object (the `runtime.Object` held in `RawExtension.Object`):
either a `runtime.Unknown` opaque blob, or a typed object carrying its
`TypeMeta` kind string and a payload. -/
inductive ArgsObject where
  | unknown (raw : String)
  | typed (kind : String) (payload : ArgsPayload)
deriving DecidableEq

/-- The call `args.GetObjectKind().SetGroupVersionKind(gvk)`: record the resolved
kind on a typed object. The defaulting pass only applies it to objects freshly
returned by `scheme.New`, which are typed. -/
def ArgsObject.setGroupVersionKind (kind : String) : ArgsObject → ArgsObject
  | .unknown raw => .unknown raw
  | .typed _ payload => .typed kind payload

/-- Modelled from the spec: the plugin-argument registry interface
(`GetPluginArgConversionScheme`, declared outside the given file): look up a
zero-value instance by kind name (`scheme.New`; `none` models the lookup error
for an unknown kind), and apply a type's default-filling routine
(`scheme.Default`). -/
structure Scheme where
  new : String → Option ArgsObject
  defaultFn : ArgsObject → ArgsObject

/-- Dispatch of `scheme.Default` over the argument types whose defaulters are
defined in the given file; `fg` is the `VolumeCapacityPriority` feature-gate
value consumed by the volume-binding defaulter. -/
def payloadDefault (fg : Bool) : ArgsPayload → ArgsPayload
  | .defaultPreemption a => .defaultPreemption (SetDefaults_DefaultPreemptionArgs a)
  | .interPodAffinity a => .interPodAffinity (SetDefaults_InterPodAffinityArgs a)
  | .volumeBinding a => .volumeBinding (SetDefaults_VolumeBindingArgs fg a)
  | .nodeResourcesBalancedAllocation a =>
      .nodeResourcesBalancedAllocation (SetDefaults_NodeResourcesBalancedAllocationArgs a)
  | .podTopologySpread a => .podTopologySpread (SetDefaults_PodTopologySpreadArgs a)
  | .nodeResourcesFit a => .nodeResourcesFit (SetDefaults_NodeResourcesFitArgs a)

/-- `scheme.Default` of the concrete scheme: a no-op on `runtime.Unknown` (no
defaulter is registered for it), and the registered defaulter on a typed object. -/
def schemeDefault (fg : Bool) : ArgsObject → ArgsObject
  | .unknown raw => .unknown raw
  | .typed kind payload => .typed kind (payloadDefault fg payload)

/-- Modelled from the spec: `scheme.New` of the concrete scheme over the kinds this
package registers: the zero-value instance (empty `TypeMeta`) for a known kind,
and a lookup miss for an unknown or out-of-tree kind. -/
def schemeNew : String → Option ArgsObject
  | "DefaultPreemptionArgs" => some (.typed "" (.defaultPreemption {}))
  | "InterPodAffinityArgs" => some (.typed "" (.interPodAffinity {}))
  | "VolumeBindingArgs" => some (.typed "" (.volumeBinding {}))
  | "NodeResourcesBalancedAllocationArgs" => some (.typed "" (.nodeResourcesBalancedAllocation {}))
  | "PodTopologySpreadArgs" => some (.typed "" (.podTopologySpread {}))
  | "NodeResourcesFitArgs" => some (.typed "" (.nodeResourcesFit {}))
  | _ => none

/-- Modelled from the spec: the concrete plugin-argument conversion scheme assembled
from the defaulting functions of the given file. -/
def pluginArgConversionScheme (fg : Bool) : Scheme :=
  { new := schemeNew, defaultFn := schemeDefault fg }

/-- One `configv1.PluginConfig` entry: a plugin name plus the `RawExtension`
argument object (`Args.Object`; `none` when the raw extension holds no object,
in which case `scheme.Default` is a no-op). -/
structure PluginConfig where
  name : String
  args : Option ArgsObject := none
deriving DecidableEq

/-- A scheduling profile (`configv1.KubeSchedulerProfile`). -/
structure KubeSchedulerProfile where
  schedulerName : Option String := none
  plugins : Option Plugins := none
  pluginConfig : List PluginConfig := []
deriving DecidableEq

/-- The leader-election settings
(`componentbaseconfigv1alpha1.LeaderElectionConfiguration`); durations are
modelled as integers with `0` the zero `metav1.Duration`. -/
structure LeaderElectionConfiguration where
  leaderElect : Option Bool := none
  leaseDuration : Int := 0
  renewDeadline : Int := 0
  retryPeriod : Int := 0
  resourceLock : String := ""
  resourceNamespace : String := ""
  resourceName : String := ""
deriving DecidableEq

/-- The client-connection settings (`componentbaseconfigv1alpha1.ClientConnectionConfiguration`);
`QPS` is an exact rational standing for the float field, with `0` its unset value. -/
structure ClientConnectionConfiguration where
  contentType : String := ""
  qps : Rat := 0
  burst : Int := 0
deriving DecidableEq

/-- The top-level configuration (`configv1.KubeSchedulerConfiguration`); only the
fields touched by the defaulting pass are modelled. -/
structure KubeSchedulerConfiguration where
  parallelism : Option Int := none
  leaderElection : LeaderElectionConfiguration := {}
  clientConnection : ClientConnectionConfiguration := {}
  percentageOfNodesToScore : Option Int := none
  podInitialBackoffSeconds : Option Int := none
  podMaxBackoffSeconds : Option Int := none
  profiles : List KubeSchedulerProfile := []
  enableProfiling : Option Bool := none
  enableContentionProfiling : Option Bool := none
deriving DecidableEq

/-- Insertion into a sorted duplicate-free string list. The source's
`k8s.io/apimachinery/pkg/util/sets.String` (`NewString` / `Insert` / `Has` /
`List`) is a string set whose `List` method returns the members sorted; it is
modelled as the sorted list of its members. -/
def strInsert (x : String) : List String → List String
  | [] => [x]
  | y :: ys => if x < y then x :: y :: ys else if x = y then y :: ys else y :: strInsert x ys

/-- `pluginsNames` from `defaults.go`: the sorted, deduplicated names of every
`Enabled` plugin across the twelve extension points; a `nil` pipeline yields the
empty list. -/
def pluginsNames : Option Plugins → List String
  | none => []
  | some p =>
    let extensions : List PluginSet :=
      [p.multiPoint, p.preFilter, p.filter, p.postFilter, p.reserve, p.preScore,
       p.score, p.preBind, p.bind, p.postBind, p.permit, p.queueSort]
    extensions.foldl (fun n e => e.enabled.foldl (fun n pg => strInsert pg.name n) n) []

/-- The body of the first loop of `setDefaults_KubeSchedulerProfile`: default a
known-typed existing argument object in place, skipping `runtime.Unknown`
objects, and skipping a nil object on which `scheme.Default` is a no-op. -/
def defaultExistingEntry (scheme : Scheme) (pc : PluginConfig) : PluginConfig :=
  match pc.args with
  | some (ArgsObject.unknown _) => pc
  | some a => { pc with args := some (scheme.defaultFn a) }
  | none => pc

/-- The body of the append loop of `setDefaults_KubeSchedulerProfile`: skip a name
that already has a config; skip silently a name whose kind (`name + "Args"`) the
scheme cannot resolve (out-of-tree, or requires no configuration); otherwise
construct, default, and kind-tag a fresh argument object for it. -/
def completionEntry (scheme : Scheme) (existingConfigs : List String)
    (name : String) : Option PluginConfig :=
  if existingConfigs.contains name then none
  else
    match scheme.new (name ++ "Args") with
    | none => none
    | some args =>
      some { name := name,
             args := some (ArgsObject.setGroupVersionKind (name ++ "Args") (scheme.defaultFn args)) }

/-- `setDefaults_KubeSchedulerProfile`: merge the built-in default plugin set into
the profile (the external collaborators `mergePlugins` and `getDefaultPlugins`
are parameters), collect the names of the existing plugin configs while
defaulting every known-typed existing argument object in place (skipping
`runtime.Unknown`, and skipping a nil object on which `scheme.Default` is a
no-op), then append a defaulted, kind-tagged argument entry for every enabled
plugin name that has no entry yet and whose kind (`name + "Args"`) the scheme
resolves; a scheme lookup error skips the name silently. -/
def setDefaults_KubeSchedulerProfile
    (mergePlugins : Option Plugins → Option Plugins → Option Plugins)
    (getDefaultPlugins : Option Plugins) (scheme : Scheme)
    (prof : KubeSchedulerProfile) : KubeSchedulerProfile :=
  let plugins := mergePlugins getDefaultPlugins prof.plugins
  let existingConfigs := prof.pluginConfig.foldl (fun s pc => strInsert pc.name s) []
  let defaulted := prof.pluginConfig.map (defaultExistingEntry scheme)
  let appended := (pluginsNames plugins).filterMap (completionEntry scheme existingConfigs)
  { prof with plugins := plugins, pluginConfig := defaulted ++ appended }

/-- Modelled from the spec: the shared recommended leader-election defaults
collaborator (`componentbaseconfigv1alpha1.RecommendedDefaultLeaderElectionConfiguration`,
declared outside the given file): fill the generic timing fields and the
leader-elect flag when unset. -/
def RecommendedDefaultLeaderElectionConfiguration
    (obj : LeaderElectionConfiguration) : LeaderElectionConfiguration :=
  let obj := if obj.leaseDuration = 0 then { obj with leaseDuration := 15 } else obj
  let obj := if obj.renewDeadline = 0 then { obj with renewDeadline := 10 } else obj
  let obj := if obj.retryPeriod = 0 then { obj with retryPeriod := 2 } else obj
  if obj.leaderElect = none then { obj with leaderElect := some true } else obj

/-- Statement `if obj.Parallelism == nil { obj.Parallelism = pointer.Int32Ptr(16) }`. -/
def defaultParallelismStep (obj : KubeSchedulerConfiguration) : KubeSchedulerConfiguration :=
  if obj.parallelism = none then { obj with parallelism := some 16 } else obj

/-- Statement `if len(obj.Profiles) == 0 { obj.Profiles = append(obj.Profiles, ...{}) }`. -/
def ensureProfilesStep (obj : KubeSchedulerConfiguration) : KubeSchedulerConfiguration :=
  if obj.profiles.length = 0 then { obj with profiles := obj.profiles ++ [{}] } else obj

/-- Statement `if len(obj.Profiles) == 1 && obj.Profiles[0].SchedulerName == nil { ... }`:
assign the default scheduler name only when there is a single, unnamed profile. -/
def defaultSchedulerNameStep (obj : KubeSchedulerConfiguration) : KubeSchedulerConfiguration :=
  match obj.profiles with
  | [p] =>
    if p.schedulerName = none then
      { obj with profiles := [{ p with schedulerName := some DefaultSchedulerName }] }
    else obj
  | _ => obj

/-- The loop `for i := range obj.Profiles { setDefaults_KubeSchedulerProfile(&obj.Profiles[i]) }`. -/
def defaultProfilesStep (m : Option Plugins → Option Plugins → Option Plugins)
    (d : Option Plugins) (s : Scheme)
    (obj : KubeSchedulerConfiguration) : KubeSchedulerConfiguration :=
  { obj with profiles := obj.profiles.map (setDefaults_KubeSchedulerProfile m d s) }

/-- Statement defaulting `PercentageOfNodesToScore` when unset. -/
def defaultPercentageStep (obj : KubeSchedulerConfiguration) : KubeSchedulerConfiguration :=
  if obj.percentageOfNodesToScore = none then
    { obj with percentageOfNodesToScore := some DefaultPercentageOfNodesToScore }
  else obj

/-- Statement defaulting `LeaderElection.ResourceLock` to `"leases"` when empty. -/
def defaultResourceLockStep (obj : KubeSchedulerConfiguration) : KubeSchedulerConfiguration :=
  if obj.leaderElection.resourceLock = "" then
    { obj with leaderElection := { obj.leaderElection with resourceLock := "leases" } }
  else obj

/-- Statement defaulting `LeaderElection.ResourceNamespace` when empty. -/
def defaultResourceNamespaceStep (obj : KubeSchedulerConfiguration) : KubeSchedulerConfiguration :=
  if obj.leaderElection.resourceNamespace = "" then
    { obj with leaderElection :=
        { obj.leaderElection with resourceNamespace := SchedulerDefaultLockObjectNamespace } }
  else obj

/-- Statement defaulting `LeaderElection.ResourceName` when empty. -/
def defaultResourceNameStep (obj : KubeSchedulerConfiguration) : KubeSchedulerConfiguration :=
  if obj.leaderElection.resourceName = "" then
    { obj with leaderElection :=
        { obj.leaderElection with resourceName := SchedulerDefaultLockObjectName } }
  else obj

/-- Statement defaulting `ClientConnection.ContentType` when empty. -/
def defaultContentTypeStep (obj : KubeSchedulerConfiguration) : KubeSchedulerConfiguration :=
  if obj.clientConnection.contentType = "" then
    { obj with clientConnection :=
        { obj.clientConnection with contentType := "application/vnd.kubernetes.protobuf" } }
  else obj

/-- Statement defaulting `ClientConnection.QPS` to 50.0 when it is 0.0. -/
def defaultQPSStep (obj : KubeSchedulerConfiguration) : KubeSchedulerConfiguration :=
  if obj.clientConnection.qps = 0 then
    { obj with clientConnection := { obj.clientConnection with qps := 50 } }
  else obj

/-- Statement defaulting `ClientConnection.Burst` to 100 when it is 0. -/
def defaultBurstStep (obj : KubeSchedulerConfiguration) : KubeSchedulerConfiguration :=
  if obj.clientConnection.burst = 0 then
    { obj with clientConnection := { obj.clientConnection with burst := 100 } }
  else obj

/-- The call `RecommendedDefaultLeaderElectionConfiguration(&obj.LeaderElection)`. -/
def recommendedLeaderElectionStep (obj : KubeSchedulerConfiguration) : KubeSchedulerConfiguration :=
  { obj with leaderElection := RecommendedDefaultLeaderElectionConfiguration obj.leaderElection }

/-- Statement defaulting `PodInitialBackoffSeconds` to 1 when unset. -/
def defaultPodInitialBackoffStep (obj : KubeSchedulerConfiguration) : KubeSchedulerConfiguration :=
  if obj.podInitialBackoffSeconds = none then { obj with podInitialBackoffSeconds := some 1 } else obj

/-- Statement defaulting `PodMaxBackoffSeconds` to 10 when unset. -/
def defaultPodMaxBackoffStep (obj : KubeSchedulerConfiguration) : KubeSchedulerConfiguration :=
  if obj.podMaxBackoffSeconds = none then { obj with podMaxBackoffSeconds := some 10 } else obj

/-- Statement `if obj.EnableProfiling == nil { obj.EnableProfiling = pointer.Bool(true) }`. -/
def defaultEnableProfilingStep (obj : KubeSchedulerConfiguration) : KubeSchedulerConfiguration :=
  if obj.enableProfiling = none then { obj with enableProfiling := some true } else obj

/-- Statement `if *obj.EnableProfiling && obj.EnableContentionProfiling == nil { ... }`:
the dereference is safe because the previous statement made the field non-nil. -/
def defaultContentionProfilingStep (obj : KubeSchedulerConfiguration) : KubeSchedulerConfiguration :=
  if obj.enableProfiling = some true ∧ obj.enableContentionProfiling = none then
    { obj with enableContentionProfiling := some true }
  else obj

/-- The scalar-default statements that follow the per-profile loop, in source order. -/
def postProfileSteps (obj : KubeSchedulerConfiguration) : KubeSchedulerConfiguration :=
  obj |> defaultPercentageStep |> defaultResourceLockStep |> defaultResourceNamespaceStep
      |> defaultResourceNameStep |> defaultContentTypeStep |> defaultQPSStep |> defaultBurstStep
      |> recommendedLeaderElectionStep |> defaultPodInitialBackoffStep |> defaultPodMaxBackoffStep
      |> defaultEnableProfilingStep |> defaultContentionProfilingStep

/-- `SetDefaults_KubeSchedulerConfiguration`: the top-level defaulting pass, as the
composition of its guarded statements in source order. -/
def SetDefaults_KubeSchedulerConfiguration
    (m : Option Plugins → Option Plugins → Option Plugins)
    (d : Option Plugins) (s : Scheme)
    (obj : KubeSchedulerConfiguration) : KubeSchedulerConfiguration :=
  obj |> defaultParallelismStep |> ensureProfilesStep |> defaultSchedulerNameStep
      |> defaultProfilesStep m d s |> postProfileSteps

/-- Map a fallible function over a list, aborting at the first error: the shape of
a defaulting loop whose collaborator may fail, with no per-element recovery. -/
def mapExcept {α β ε : Type} (f : α → Except ε β) : List α → Except ε (List β)
  | [] => Except.ok []
  | x :: xs =>
    match f x with
    | Except.error e => Except.error e
    | Except.ok y =>
      match mapExcept f xs with
      | Except.error e => Except.error e
      | Except.ok ys => Except.ok (y :: ys)

/-- Modelled from the spec: `setDefaults_KubeSchedulerProfile` with the merge
collaborator's error channel made explicit (the spec contracts that a merge
failure is propagated verbatim; the remainder of the routine cannot fail). -/
def setDefaults_KubeSchedulerProfileE
    (mergePluginsE : Option Plugins → Option Plugins → Except String (Option Plugins))
    (getDefaultPlugins : Option Plugins) (scheme : Scheme)
    (prof : KubeSchedulerProfile) : Except String KubeSchedulerProfile :=
  match mergePluginsE getDefaultPlugins prof.plugins with
  | Except.error e => Except.error e
  | Except.ok plugins =>
    Except.ok (setDefaults_KubeSchedulerProfile (fun _ _ => plugins) getDefaultPlugins scheme prof)

/-- Modelled from the spec: the top-level defaulting pass with the merge
collaborator's error channel made explicit; a merge failure in any profile
aborts the whole pass (all-or-nothing, no per-profile recovery). -/
def SetDefaults_KubeSchedulerConfigurationE
    (mergePluginsE : Option Plugins → Option Plugins → Except String (Option Plugins))
    (d : Option Plugins) (s : Scheme)
    (obj : KubeSchedulerConfiguration) : Except String KubeSchedulerConfiguration :=
  let obj := defaultParallelismStep obj
  let obj := ensureProfilesStep obj
  let obj := defaultSchedulerNameStep obj
  match mapExcept (setDefaults_KubeSchedulerProfileE mergePluginsE d s) obj.profiles with
  | Except.error e => Except.error e
  | Except.ok ps => Except.ok (postProfileSteps { obj with profiles := ps })

/-! ## Record-update forms of the guarded statements -/

theorem defaultParallelismStep_eq (obj : KubeSchedulerConfiguration) :
    defaultParallelismStep obj =
      { obj with parallelism := if obj.parallelism = none then some 16 else obj.parallelism } := by
  by_cases h : obj.parallelism = none <;> simp [defaultParallelismStep, h]

theorem ensureProfilesStep_eq (obj : KubeSchedulerConfiguration) :
    ensureProfilesStep obj =
      { obj with profiles := if obj.profiles.length = 0 then obj.profiles ++ [{}] else obj.profiles } := by
  by_cases h : obj.profiles.length = 0 <;> simp [ensureProfilesStep, h]

theorem defaultPercentageStep_eq (obj : KubeSchedulerConfiguration) :
    defaultPercentageStep obj =
      { obj with percentageOfNodesToScore :=
          if obj.percentageOfNodesToScore = none then some DefaultPercentageOfNodesToScore
          else obj.percentageOfNodesToScore } := by
  by_cases h : obj.percentageOfNodesToScore = none <;> simp [defaultPercentageStep, h]

theorem defaultResourceLockStep_eq (obj : KubeSchedulerConfiguration) :
    defaultResourceLockStep obj =
      { obj with leaderElection :=
          { obj.leaderElection with resourceLock :=
              if obj.leaderElection.resourceLock = "" then "leases"
              else obj.leaderElection.resourceLock } } := by
  by_cases h : obj.leaderElection.resourceLock = "" <;> simp [defaultResourceLockStep, h]

theorem defaultResourceNamespaceStep_eq (obj : KubeSchedulerConfiguration) :
    defaultResourceNamespaceStep obj =
      { obj with leaderElection :=
          { obj.leaderElection with resourceNamespace :=
              if obj.leaderElection.resourceNamespace = "" then SchedulerDefaultLockObjectNamespace
              else obj.leaderElection.resourceNamespace } } := by
  by_cases h : obj.leaderElection.resourceNamespace = "" <;> simp [defaultResourceNamespaceStep, h]

theorem defaultResourceNameStep_eq (obj : KubeSchedulerConfiguration) :
    defaultResourceNameStep obj =
      { obj with leaderElection :=
          { obj.leaderElection with resourceName :=
              if obj.leaderElection.resourceName = "" then SchedulerDefaultLockObjectName
              else obj.leaderElection.resourceName } } := by
  by_cases h : obj.leaderElection.resourceName = "" <;> simp [defaultResourceNameStep, h]

theorem defaultContentTypeStep_eq (obj : KubeSchedulerConfiguration) :
    defaultContentTypeStep obj =
      { obj with clientConnection :=
          { obj.clientConnection with contentType :=
              if obj.clientConnection.contentType = "" then "application/vnd.kubernetes.protobuf"
              else obj.clientConnection.contentType } } := by
  by_cases h : obj.clientConnection.contentType = "" <;> simp [defaultContentTypeStep, h]

theorem defaultQPSStep_eq (obj : KubeSchedulerConfiguration) :
    defaultQPSStep obj =
      { obj with clientConnection :=
          { obj.clientConnection with qps :=
              if obj.clientConnection.qps = 0 then 50 else obj.clientConnection.qps } } := by
  by_cases h : obj.clientConnection.qps = 0 <;> simp [defaultQPSStep, h]

theorem defaultBurstStep_eq (obj : KubeSchedulerConfiguration) :
    defaultBurstStep obj =
      { obj with clientConnection :=
          { obj.clientConnection with burst :=
              if obj.clientConnection.burst = 0 then 100 else obj.clientConnection.burst } } := by
  by_cases h : obj.clientConnection.burst = 0 <;> simp [defaultBurstStep, h]

theorem defaultPodInitialBackoffStep_eq (obj : KubeSchedulerConfiguration) :
    defaultPodInitialBackoffStep obj =
      { obj with podInitialBackoffSeconds :=
          if obj.podInitialBackoffSeconds = none then some 1 else obj.podInitialBackoffSeconds } := by
  by_cases h : obj.podInitialBackoffSeconds = none <;> simp [defaultPodInitialBackoffStep, h]

theorem defaultPodMaxBackoffStep_eq (obj : KubeSchedulerConfiguration) :
    defaultPodMaxBackoffStep obj =
      { obj with podMaxBackoffSeconds :=
          if obj.podMaxBackoffSeconds = none then some 10 else obj.podMaxBackoffSeconds } := by
  by_cases h : obj.podMaxBackoffSeconds = none <;> simp [defaultPodMaxBackoffStep, h]

theorem defaultEnableProfilingStep_eq (obj : KubeSchedulerConfiguration) :
    defaultEnableProfilingStep obj =
      { obj with enableProfiling :=
          if obj.enableProfiling = none then some true else obj.enableProfiling } := by
  by_cases h : obj.enableProfiling = none <;> simp [defaultEnableProfilingStep, h]

theorem defaultContentionProfilingStep_eq (obj : KubeSchedulerConfiguration) :
    defaultContentionProfilingStep obj =
      { obj with enableContentionProfiling :=
          if obj.enableProfiling = some true ∧ obj.enableContentionProfiling = none then some true
          else obj.enableContentionProfiling } := by
  by_cases h : obj.enableProfiling = some true ∧ obj.enableContentionProfiling = none <;>
    simp [defaultContentionProfilingStep, h]

theorem defaultSchedulerNameStep_parallelism (obj : KubeSchedulerConfiguration) :
    (defaultSchedulerNameStep obj).parallelism = obj.parallelism := by
  unfold defaultSchedulerNameStep
  split <;> first | rfl | (split <;> rfl)

theorem defaultSchedulerNameStep_leaderElection (obj : KubeSchedulerConfiguration) :
    (defaultSchedulerNameStep obj).leaderElection = obj.leaderElection := by
  unfold defaultSchedulerNameStep
  split <;> first | rfl | (split <;> rfl)

theorem defaultSchedulerNameStep_clientConnection (obj : KubeSchedulerConfiguration) :
    (defaultSchedulerNameStep obj).clientConnection = obj.clientConnection := by
  unfold defaultSchedulerNameStep
  split <;> first | rfl | (split <;> rfl)

theorem defaultSchedulerNameStep_percentage (obj : KubeSchedulerConfiguration) :
    (defaultSchedulerNameStep obj).percentageOfNodesToScore = obj.percentageOfNodesToScore := by
  unfold defaultSchedulerNameStep
  split <;> first | rfl | (split <;> rfl)

theorem defaultSchedulerNameStep_podInitialBackoff (obj : KubeSchedulerConfiguration) :
    (defaultSchedulerNameStep obj).podInitialBackoffSeconds = obj.podInitialBackoffSeconds := by
  unfold defaultSchedulerNameStep
  split <;> first | rfl | (split <;> rfl)

theorem defaultSchedulerNameStep_podMaxBackoff (obj : KubeSchedulerConfiguration) :
    (defaultSchedulerNameStep obj).podMaxBackoffSeconds = obj.podMaxBackoffSeconds := by
  unfold defaultSchedulerNameStep
  split <;> first | rfl | (split <;> rfl)

theorem defaultSchedulerNameStep_enableProfiling (obj : KubeSchedulerConfiguration) :
    (defaultSchedulerNameStep obj).enableProfiling = obj.enableProfiling := by
  unfold defaultSchedulerNameStep
  split <;> first | rfl | (split <;> rfl)

theorem defaultSchedulerNameStep_enableContentionProfiling (obj : KubeSchedulerConfiguration) :
    (defaultSchedulerNameStep obj).enableContentionProfiling = obj.enableContentionProfiling := by
  unfold defaultSchedulerNameStep
  split <;> first | rfl | (split <;> rfl)

/-! ## Field characterizations of the top-level pass -/

theorem setDefaults_parallelism
    (m : Option Plugins → Option Plugins → Option Plugins) (d : Option Plugins) (s : Scheme)
    (obj : KubeSchedulerConfiguration) :
    (SetDefaults_KubeSchedulerConfiguration m d s obj).parallelism =
      (if obj.parallelism = none then some 16 else obj.parallelism) := by
  simp [SetDefaults_KubeSchedulerConfiguration, postProfileSteps, defaultProfilesStep,
    recommendedLeaderElectionStep, defaultParallelismStep_eq, ensureProfilesStep_eq,
    defaultPercentageStep_eq, defaultResourceLockStep_eq, defaultResourceNamespaceStep_eq,
    defaultResourceNameStep_eq, defaultContentTypeStep_eq, defaultQPSStep_eq, defaultBurstStep_eq,
    defaultPodInitialBackoffStep_eq, defaultPodMaxBackoffStep_eq, defaultEnableProfilingStep_eq,
    defaultContentionProfilingStep_eq, defaultSchedulerNameStep_parallelism]

theorem setDefaults_leaderElection
    (m : Option Plugins → Option Plugins → Option Plugins) (d : Option Plugins) (s : Scheme)
    (obj : KubeSchedulerConfiguration) :
    (SetDefaults_KubeSchedulerConfiguration m d s obj).leaderElection =
      RecommendedDefaultLeaderElectionConfiguration
        { obj.leaderElection with
          resourceLock :=
            if obj.leaderElection.resourceLock = "" then "leases" else obj.leaderElection.resourceLock,
          resourceNamespace :=
            if obj.leaderElection.resourceNamespace = "" then SchedulerDefaultLockObjectNamespace
            else obj.leaderElection.resourceNamespace,
          resourceName :=
            if obj.leaderElection.resourceName = "" then SchedulerDefaultLockObjectName
            else obj.leaderElection.resourceName } := by
  simp [SetDefaults_KubeSchedulerConfiguration, postProfileSteps, defaultProfilesStep,
    recommendedLeaderElectionStep, defaultParallelismStep_eq, ensureProfilesStep_eq,
    defaultPercentageStep_eq, defaultResourceLockStep_eq, defaultResourceNamespaceStep_eq,
    defaultResourceNameStep_eq, defaultContentTypeStep_eq, defaultQPSStep_eq, defaultBurstStep_eq,
    defaultPodInitialBackoffStep_eq, defaultPodMaxBackoffStep_eq, defaultEnableProfilingStep_eq,
    defaultContentionProfilingStep_eq, defaultSchedulerNameStep_leaderElection]

theorem setDefaults_clientConnection
    (m : Option Plugins → Option Plugins → Option Plugins) (d : Option Plugins) (s : Scheme)
    (obj : KubeSchedulerConfiguration) :
    (SetDefaults_KubeSchedulerConfiguration m d s obj).clientConnection =
      { contentType :=
          if obj.clientConnection.contentType = "" then "application/vnd.kubernetes.protobuf"
          else obj.clientConnection.contentType,
        qps := if obj.clientConnection.qps = 0 then 50 else obj.clientConnection.qps,
        burst := if obj.clientConnection.burst = 0 then 100 else obj.clientConnection.burst } := by
  simp [SetDefaults_KubeSchedulerConfiguration, postProfileSteps, defaultProfilesStep,
    recommendedLeaderElectionStep, defaultParallelismStep_eq, ensureProfilesStep_eq,
    defaultPercentageStep_eq, defaultResourceLockStep_eq, defaultResourceNamespaceStep_eq,
    defaultResourceNameStep_eq, defaultContentTypeStep_eq, defaultQPSStep_eq, defaultBurstStep_eq,
    defaultPodInitialBackoffStep_eq, defaultPodMaxBackoffStep_eq, defaultEnableProfilingStep_eq,
    defaultContentionProfilingStep_eq, defaultSchedulerNameStep_clientConnection]

theorem setDefaults_podInitialBackoff
    (m : Option Plugins → Option Plugins → Option Plugins) (d : Option Plugins) (s : Scheme)
    (obj : KubeSchedulerConfiguration) :
    (SetDefaults_KubeSchedulerConfiguration m d s obj).podInitialBackoffSeconds =
      (if obj.podInitialBackoffSeconds = none then some 1 else obj.podInitialBackoffSeconds) := by
  simp [SetDefaults_KubeSchedulerConfiguration, postProfileSteps, defaultProfilesStep,
    recommendedLeaderElectionStep, defaultParallelismStep_eq, ensureProfilesStep_eq,
    defaultPercentageStep_eq, defaultResourceLockStep_eq, defaultResourceNamespaceStep_eq,
    defaultResourceNameStep_eq, defaultContentTypeStep_eq, defaultQPSStep_eq, defaultBurstStep_eq,
    defaultPodInitialBackoffStep_eq, defaultPodMaxBackoffStep_eq, defaultEnableProfilingStep_eq,
    defaultContentionProfilingStep_eq, defaultSchedulerNameStep_podInitialBackoff]

theorem setDefaults_podMaxBackoff
    (m : Option Plugins → Option Plugins → Option Plugins) (d : Option Plugins) (s : Scheme)
    (obj : KubeSchedulerConfiguration) :
    (SetDefaults_KubeSchedulerConfiguration m d s obj).podMaxBackoffSeconds =
      (if obj.podMaxBackoffSeconds = none then some 10 else obj.podMaxBackoffSeconds) := by
  simp [SetDefaults_KubeSchedulerConfiguration, postProfileSteps, defaultProfilesStep,
    recommendedLeaderElectionStep, defaultParallelismStep_eq, ensureProfilesStep_eq,
    defaultPercentageStep_eq, defaultResourceLockStep_eq, defaultResourceNamespaceStep_eq,
    defaultResourceNameStep_eq, defaultContentTypeStep_eq, defaultQPSStep_eq, defaultBurstStep_eq,
    defaultPodInitialBackoffStep_eq, defaultPodMaxBackoffStep_eq, defaultEnableProfilingStep_eq,
    defaultContentionProfilingStep_eq, defaultSchedulerNameStep_podMaxBackoff]

theorem setDefaults_percentage
    (m : Option Plugins → Option Plugins → Option Plugins) (d : Option Plugins) (s : Scheme)
    (obj : KubeSchedulerConfiguration) :
    (SetDefaults_KubeSchedulerConfiguration m d s obj).percentageOfNodesToScore =
      (if obj.percentageOfNodesToScore = none then some DefaultPercentageOfNodesToScore
       else obj.percentageOfNodesToScore) := by
  simp [SetDefaults_KubeSchedulerConfiguration, postProfileSteps, defaultProfilesStep,
    recommendedLeaderElectionStep, defaultParallelismStep_eq, ensureProfilesStep_eq,
    defaultPercentageStep_eq, defaultResourceLockStep_eq, defaultResourceNamespaceStep_eq,
    defaultResourceNameStep_eq, defaultContentTypeStep_eq, defaultQPSStep_eq, defaultBurstStep_eq,
    defaultPodInitialBackoffStep_eq, defaultPodMaxBackoffStep_eq, defaultEnableProfilingStep_eq,
    defaultContentionProfilingStep_eq, defaultSchedulerNameStep_percentage]

theorem setDefaults_enableProfiling
    (m : Option Plugins → Option Plugins → Option Plugins) (d : Option Plugins) (s : Scheme)
    (obj : KubeSchedulerConfiguration) :
    (SetDefaults_KubeSchedulerConfiguration m d s obj).enableProfiling =
      (if obj.enableProfiling = none then some true else obj.enableProfiling) := by
  simp [SetDefaults_KubeSchedulerConfiguration, postProfileSteps, defaultProfilesStep,
    recommendedLeaderElectionStep, defaultParallelismStep_eq, ensureProfilesStep_eq,
    defaultPercentageStep_eq, defaultResourceLockStep_eq, defaultResourceNamespaceStep_eq,
    defaultResourceNameStep_eq, defaultContentTypeStep_eq, defaultQPSStep_eq, defaultBurstStep_eq,
    defaultPodInitialBackoffStep_eq, defaultPodMaxBackoffStep_eq, defaultEnableProfilingStep_eq,
    defaultContentionProfilingStep_eq, defaultSchedulerNameStep_enableProfiling]

theorem setDefaults_enableContentionProfiling
    (m : Option Plugins → Option Plugins → Option Plugins) (d : Option Plugins) (s : Scheme)
    (obj : KubeSchedulerConfiguration) :
    (SetDefaults_KubeSchedulerConfiguration m d s obj).enableContentionProfiling =
      (if (if obj.enableProfiling = none then some true else obj.enableProfiling) = some true ∧
            obj.enableContentionProfiling = none then some true
       else obj.enableContentionProfiling) := by
  simp [SetDefaults_KubeSchedulerConfiguration, postProfileSteps, defaultProfilesStep,
    recommendedLeaderElectionStep, defaultParallelismStep_eq, ensureProfilesStep_eq,
    defaultPercentageStep_eq, defaultResourceLockStep_eq, defaultResourceNamespaceStep_eq,
    defaultResourceNameStep_eq, defaultContentTypeStep_eq, defaultQPSStep_eq, defaultBurstStep_eq,
    defaultPodInitialBackoffStep_eq, defaultPodMaxBackoffStep_eq, defaultEnableProfilingStep_eq,
    defaultContentionProfilingStep_eq, defaultSchedulerNameStep_enableProfiling,
    defaultSchedulerNameStep_enableContentionProfiling]

theorem setDefaults_profiles
    (m : Option Plugins → Option Plugins → Option Plugins) (d : Option Plugins) (s : Scheme)
    (obj : KubeSchedulerConfiguration) :
    (SetDefaults_KubeSchedulerConfiguration m d s obj).profiles =
      ((defaultSchedulerNameStep (ensureProfilesStep (defaultParallelismStep obj))).profiles).map
        (setDefaults_KubeSchedulerProfile m d s) := by
  simp [SetDefaults_KubeSchedulerConfiguration, postProfileSteps, defaultProfilesStep,
    recommendedLeaderElectionStep, defaultPercentageStep_eq, defaultResourceLockStep_eq,
    defaultResourceNamespaceStep_eq, defaultResourceNameStep_eq, defaultContentTypeStep_eq,
    defaultQPSStep_eq, defaultBurstStep_eq, defaultPodInitialBackoffStep_eq,
    defaultPodMaxBackoffStep_eq, defaultEnableProfilingStep_eq, defaultContentionProfilingStep_eq]

theorem recommended_resourceLock (le : LeaderElectionConfiguration) :
    (RecommendedDefaultLeaderElectionConfiguration le).resourceLock = le.resourceLock := by
  simp only [RecommendedDefaultLeaderElectionConfiguration]
  split <;> split <;> split <;> split <;> rfl

theorem setDefaults_KubeSchedulerProfile_schedulerName
    (m : Option Plugins → Option Plugins → Option Plugins) (d : Option Plugins) (s : Scheme)
    (prof : KubeSchedulerProfile) :
    (setDefaults_KubeSchedulerProfile m d s prof).schedulerName = prof.schedulerName := rfl

theorem defaultSchedulerNameStep_profiles (obj : KubeSchedulerConfiguration) :
    (defaultSchedulerNameStep obj).profiles =
      (match obj.profiles with
       | [p] =>
         if p.schedulerName = none then [{ p with schedulerName := some DefaultSchedulerName }]
         else [p]
       | ps => ps) := by
  unfold defaultSchedulerNameStep
  split <;> first | simp_all | (split <;> simp_all)

/-- An identity used by the merge-free witnesses: a merge collaborator that keeps
the user pipeline unchanged. It satisfies the spec's merge contract trivially. -/
def mergeKeepUser : Option Plugins → Option Plugins → Option Plugins := fun _ x => x

/-! ## Claim C4: scalar defaults -/

/-- Claim C4: on the empty configuration the pass yields `Parallelism = 16`,
`QPS = 50`, `Burst = 100`, `PodInitialBackoffSeconds = 1`,
`PodMaxBackoffSeconds = 10`, `EnableProfiling = true`,
`EnableContentionProfiling = true`, the protobuf content type and the
`"leases"` resource lock; and each of these assignments happens only when the
field is unset — an already-set field is preserved. -/
theorem scalar_defaults
    (m : Option Plugins → Option Plugins → Option Plugins) (d : Option Plugins) (s : Scheme) :
    ((SetDefaults_KubeSchedulerConfiguration m d s {}).parallelism = some 16 ∧
     (SetDefaults_KubeSchedulerConfiguration m d s {}).clientConnection.qps = 50 ∧
     (SetDefaults_KubeSchedulerConfiguration m d s {}).clientConnection.burst = 100 ∧
     (SetDefaults_KubeSchedulerConfiguration m d s {}).podInitialBackoffSeconds = some 1 ∧
     (SetDefaults_KubeSchedulerConfiguration m d s {}).podMaxBackoffSeconds = some 10 ∧
     (SetDefaults_KubeSchedulerConfiguration m d s {}).enableProfiling = some true ∧
     (SetDefaults_KubeSchedulerConfiguration m d s {}).enableContentionProfiling = some true ∧
     (SetDefaults_KubeSchedulerConfiguration m d s {}).clientConnection.contentType =
       "application/vnd.kubernetes.protobuf" ∧
     (SetDefaults_KubeSchedulerConfiguration m d s {}).leaderElection.resourceLock = "leases") ∧
    (∀ obj : KubeSchedulerConfiguration,
      (obj.parallelism ≠ none →
        (SetDefaults_KubeSchedulerConfiguration m d s obj).parallelism = obj.parallelism) ∧
      (obj.clientConnection.qps ≠ 0 →
        (SetDefaults_KubeSchedulerConfiguration m d s obj).clientConnection.qps =
          obj.clientConnection.qps) ∧
      (obj.clientConnection.burst ≠ 0 →
        (SetDefaults_KubeSchedulerConfiguration m d s obj).clientConnection.burst =
          obj.clientConnection.burst) ∧
      (obj.podInitialBackoffSeconds ≠ none →
        (SetDefaults_KubeSchedulerConfiguration m d s obj).podInitialBackoffSeconds =
          obj.podInitialBackoffSeconds) ∧
      (obj.podMaxBackoffSeconds ≠ none →
        (SetDefaults_KubeSchedulerConfiguration m d s obj).podMaxBackoffSeconds =
          obj.podMaxBackoffSeconds) ∧
      (obj.enableProfiling ≠ none →
        (SetDefaults_KubeSchedulerConfiguration m d s obj).enableProfiling = obj.enableProfiling) ∧
      (obj.enableContentionProfiling ≠ none →
        (SetDefaults_KubeSchedulerConfiguration m d s obj).enableContentionProfiling =
          obj.enableContentionProfiling) ∧
      (obj.clientConnection.contentType ≠ "" →
        (SetDefaults_KubeSchedulerConfiguration m d s obj).clientConnection.contentType =
          obj.clientConnection.contentType) ∧
      (obj.leaderElection.resourceLock ≠ "" →
        (SetDefaults_KubeSchedulerConfiguration m d s obj).leaderElection.resourceLock =
          obj.leaderElection.resourceLock)) := by
  constructor
  · refine ⟨?_, ?_, ?_, ?_, ?_, ?_, ?_, ?_, ?_⟩ <;>
      simp [setDefaults_parallelism, setDefaults_clientConnection, setDefaults_podInitialBackoff,
        setDefaults_podMaxBackoff, setDefaults_enableProfiling,
        setDefaults_enableContentionProfiling, setDefaults_leaderElection, recommended_resourceLock]
  · intro obj
    refine ⟨?_, ?_, ?_, ?_, ?_, ?_, ?_, ?_, ?_⟩ <;> intro h <;>
      simp [setDefaults_parallelism, setDefaults_clientConnection, setDefaults_podInitialBackoff,
        setDefaults_podMaxBackoff, setDefaults_enableProfiling,
        setDefaults_enableContentionProfiling, setDefaults_leaderElection,
        recommended_resourceLock, h]

/-- Witness for C4: an explicitly set `Parallelism` is preserved. -/
theorem scalar_defaults_witness :
    (SetDefaults_KubeSchedulerConfiguration mergeKeepUser none (pluginArgConversionScheme true)
        { parallelism := some 7 }).parallelism = some 7 :=
  ((scalar_defaults mergeKeepUser none (pluginArgConversionScheme true)).2
      { parallelism := some 7 }).1 (by decide)

/-! ## Claim C5: contention profiling is gated on resolved profiling -/

/-- Claim C5: the `EnableContentionProfiling` default is applied only after the
`EnableProfiling` default is resolved: both unset yields both `true`; profiling
explicitly `false` leaves an unset contention flag unset; an explicitly set
contention flag is never changed. -/
theorem contention_profiling_default
    (m : Option Plugins → Option Plugins → Option Plugins) (d : Option Plugins) (s : Scheme)
    (obj : KubeSchedulerConfiguration) :
    (obj.enableProfiling = none → obj.enableContentionProfiling = none →
      (SetDefaults_KubeSchedulerConfiguration m d s obj).enableProfiling = some true ∧
      (SetDefaults_KubeSchedulerConfiguration m d s obj).enableContentionProfiling = some true) ∧
    (obj.enableProfiling = some false → obj.enableContentionProfiling = none →
      (SetDefaults_KubeSchedulerConfiguration m d s obj).enableContentionProfiling = none) ∧
    (∀ b : Bool, obj.enableContentionProfiling = some b →
      (SetDefaults_KubeSchedulerConfiguration m d s obj).enableContentionProfiling = some b) := by
  refine ⟨?_, ?_, ?_⟩
  · intro h1 h2
    constructor <;>
      simp [setDefaults_enableProfiling, setDefaults_enableContentionProfiling, h1, h2]
  · intro h1 h2
    simp [setDefaults_enableContentionProfiling, h1, h2]
  · intro b hb
    simp [setDefaults_enableContentionProfiling, hb]

/-- Witness for C5: profiling explicitly disabled leaves contention profiling unset. -/
theorem contention_profiling_default_witness :
    (SetDefaults_KubeSchedulerConfiguration mergeKeepUser none (pluginArgConversionScheme true)
        { enableProfiling := some false }).enableContentionProfiling = none :=
  (contention_profiling_default mergeKeepUser none (pluginArgConversionScheme true)
      { enableProfiling := some false }).2.1 rfl rfl

/-! ## Claim C3: profiles non-empty; default scheduler name -/

/-- Claim C3: after the pass the profile list is non-empty, and the default
scheduler name is assigned exactly when a single profile lacks a name: an empty
profile list becomes one default-named profile, a single unnamed profile
receives the system default name, a single named profile keeps its name, and
with two or more profiles no scheduler name is changed. -/
theorem profiles_nonempty_and_naming
    (m : Option Plugins → Option Plugins → Option Plugins) (d : Option Plugins) (s : Scheme)
    (obj : KubeSchedulerConfiguration) :
    (SetDefaults_KubeSchedulerConfiguration m d s obj).profiles ≠ [] ∧
    (obj.profiles = [] →
      (SetDefaults_KubeSchedulerConfiguration m d s obj).profiles.map
          (fun p => p.schedulerName) = [some DefaultSchedulerName]) ∧
    (∀ p, obj.profiles = [p] → p.schedulerName = none →
      (SetDefaults_KubeSchedulerConfiguration m d s obj).profiles.map
          (fun p => p.schedulerName) = [some DefaultSchedulerName]) ∧
    (∀ p n, obj.profiles = [p] → p.schedulerName = some n →
      (SetDefaults_KubeSchedulerConfiguration m d s obj).profiles.map
          (fun p => p.schedulerName) = [some n]) ∧
    (2 ≤ obj.profiles.length →
      (SetDefaults_KubeSchedulerConfiguration m d s obj).profiles.map
          (fun p => p.schedulerName) = obj.profiles.map (fun p => p.schedulerName)) := by
  have hpar : (defaultParallelismStep obj).profiles = obj.profiles := by
    rw [defaultParallelismStep_eq]
  refine ⟨?_, ?_, ?_, ?_, ?_⟩
  · rw [setDefaults_profiles, defaultSchedulerNameStep_profiles, ensureProfilesStep_eq]
    simp only [hpar]
    rcases hp : obj.profiles with _ | ⟨a, _ | ⟨b, rest⟩⟩ <;>
      · simp
        try (split <;> simp)
  · intro h
    rw [setDefaults_profiles, defaultSchedulerNameStep_profiles, ensureProfilesStep_eq]
    simp only [hpar, h]
    simp [setDefaults_KubeSchedulerProfile_schedulerName]
  · intro p hp hname
    rw [setDefaults_profiles, defaultSchedulerNameStep_profiles, ensureProfilesStep_eq]
    simp only [hpar, hp]
    simp [hname, setDefaults_KubeSchedulerProfile_schedulerName]
  · intro p n hp hname
    rw [setDefaults_profiles, defaultSchedulerNameStep_profiles, ensureProfilesStep_eq]
    simp only [hpar, hp]
    simp [hname, setDefaults_KubeSchedulerProfile_schedulerName]
  · intro h
    rcases hp : obj.profiles with _ | ⟨a, _ | ⟨b, rest⟩⟩
    · rw [hp] at h; simp at h
    · rw [hp] at h; simp at h
    · rw [setDefaults_profiles, defaultSchedulerNameStep_profiles, ensureProfilesStep_eq]
      simp only [hpar, hp]
      simp [setDefaults_KubeSchedulerProfile_schedulerName, Function.comp]

/-- Witness for C3: a single unnamed profile receives the default scheduler name. -/
theorem profiles_nonempty_and_naming_witness :
    (SetDefaults_KubeSchedulerConfiguration mergeKeepUser none (pluginArgConversionScheme true)
        { profiles := [{}] }).profiles.map (fun p => p.schedulerName) =
      [some DefaultSchedulerName] :=
  (profiles_nonempty_and_naming mergeKeepUser none (pluginArgConversionScheme true)
      { profiles := [{}] }).2.2.1 {} rfl rfl

/-! ## The sorted string set underlying `sets.String` -/

theorem mem_strInsert (x a : String) (l : List String) :
    x ∈ strInsert a l ↔ x = a ∨ x ∈ l := by
  induction l with
  | nil => simp [strInsert]
  | cons y ys ih =>
    simp only [strInsert]
    by_cases h1 : a < y
    · simp [h1, List.mem_cons]
    · by_cases h2 : a = y
      · subst h2
        simp [h1, List.mem_cons]
      · simp [h1, h2, List.mem_cons, ih]
        tauto

theorem strInsert_sorted (a : String) (l : List String) (h : l.Sorted (· < ·)) :
    (strInsert a l).Sorted (· < ·) := by
  induction l with
  | nil => simp [strInsert]
  | cons y ys ih =>
    have hcons := h
    rw [List.sorted_cons] at h
    simp only [strInsert]
    by_cases h1 : a < y
    · simp only [if_pos h1]
      rw [List.sorted_cons]
      refine ⟨?_, hcons⟩
      intro b hb
      rcases List.mem_cons.mp hb with rfl | hb
      · exact h1
      · exact lt_trans h1 (h.1 b hb)
    · by_cases h2 : a = y
      · simp only [if_neg h1, if_pos h2]
        exact hcons
      · simp only [if_neg h1, if_neg h2]
        rw [List.sorted_cons]
        refine ⟨?_, ih h.2⟩
        intro b hb
        rcases (mem_strInsert b a ys).mp hb with rfl | hb
        · exact lt_of_le_of_ne (not_lt.mp h1) (Ne.symm h2)
        · exact h.1 b hb

theorem foldl_strInsert_sorted {α : Type} (key : α → String) (l : List α) (init : List String)
    (h : init.Sorted (· < ·)) :
    (l.foldl (fun s x => strInsert (key x) s) init).Sorted (· < ·) := by
  induction l generalizing init with
  | nil => exact h
  | cons x xs ih => exact ih _ (strInsert_sorted _ _ h)

theorem mem_foldl_strInsert {α : Type} (key : α → String) (l : List α) (init : List String)
    (z : String) :
    z ∈ l.foldl (fun s x => strInsert (key x) s) init ↔ (∃ x ∈ l, key x = z) ∨ z ∈ init := by
  induction l generalizing init with
  | nil => simp
  | cons x xs ih =>
    simp only [List.foldl_cons, ih, mem_strInsert, List.mem_cons]
    constructor
    · rintro (⟨y, hy, rfl⟩ | rfl | hz)
      · exact Or.inl ⟨y, Or.inr hy, rfl⟩
      · exact Or.inl ⟨x, Or.inl rfl, rfl⟩
      · exact Or.inr hz
    · rintro (⟨y, rfl | hy, rfl⟩ | hz)
      · exact Or.inr (Or.inl rfl)
      · exact Or.inl ⟨y, hy, rfl⟩
      · exact Or.inr (Or.inr hz)

theorem sorted_foldl_plugin_sets (sets : List PluginSet) (init : List String)
    (h : init.Sorted (· < ·)) :
    (sets.foldl (fun n e => e.enabled.foldl (fun n pg => strInsert pg.name n) n) init).Sorted
      (· < ·) := by
  induction sets generalizing init with
  | nil => exact h
  | cons e es ih => exact ih _ (foldl_strInsert_sorted Plugin.name _ _ h)

theorem mem_foldl_plugin_sets (sets : List PluginSet) (init : List String) (z : String) :
    z ∈ sets.foldl (fun n e => e.enabled.foldl (fun n pg => strInsert pg.name n) n) init ↔
      (∃ e ∈ sets, ∃ pg ∈ e.enabled, pg.name = z) ∨ z ∈ init := by
  induction sets generalizing init with
  | nil => simp
  | cons e es ih =>
    simp only [List.foldl_cons, ih, mem_foldl_strInsert Plugin.name, List.mem_cons]
    constructor
    · rintro (⟨e1, he1, hpg⟩ | ⟨pg, hpg, rfl⟩ | hz)
      · exact Or.inl ⟨e1, Or.inr he1, hpg⟩
      · exact Or.inl ⟨e, Or.inl rfl, pg, hpg, rfl⟩
      · exact Or.inr hz
    · rintro (⟨e1, rfl | he1, hpg⟩ | hz)
      · exact Or.inr (Or.inl hpg)
      · exact Or.inl ⟨e1, he1, hpg⟩
      · exact Or.inr (Or.inr hz)

/-- The name list produced by `pluginsNames` is strictly sorted (the `List` method
of `sets.String` returns the members in sorted order). -/
theorem pluginsNames_sorted (op : Option Plugins) : (pluginsNames op).Sorted (· < ·) := by
  cases op with
  | none => exact List.sorted_nil
  | some p => exact sorted_foldl_plugin_sets _ _ List.sorted_nil

theorem pluginsNames_nodup (op : Option Plugins) : (pluginsNames op).Nodup :=
  (pluginsNames_sorted op).nodup

/-- Membership in `pluginsNames`: exactly the names enabled at some extension point. -/
theorem mem_pluginsNames (p : Plugins) (z : String) :
    z ∈ pluginsNames (some p) ↔
      ∃ e ∈ [p.multiPoint, p.preFilter, p.filter, p.postFilter, p.reserve, p.preScore,
             p.score, p.preBind, p.bind, p.postBind, p.permit, p.queueSort],
        ∃ pg ∈ e.enabled, pg.name = z := by
  simp only [pluginsNames]
  rw [mem_foldl_plugin_sets]
  simp

theorem contains_iff_mem_strlist (l : List String) (x : String) :
    l.contains x = true ↔ x ∈ l :=
  List.elem_iff

/-! ## Structure of the profile defaulter's output -/

theorem setProf_plugins
    (m : Option Plugins → Option Plugins → Option Plugins) (d : Option Plugins) (s : Scheme)
    (prof : KubeSchedulerProfile) :
    (setDefaults_KubeSchedulerProfile m d s prof).plugins = m d prof.plugins := rfl

theorem setProf_pluginConfig
    (m : Option Plugins → Option Plugins → Option Plugins) (d : Option Plugins) (s : Scheme)
    (prof : KubeSchedulerProfile) :
    (setDefaults_KubeSchedulerProfile m d s prof).pluginConfig =
      prof.pluginConfig.map (defaultExistingEntry s) ++
        (pluginsNames (m d prof.plugins)).filterMap
          (completionEntry s (prof.pluginConfig.foldl (fun s pc => strInsert pc.name s) [])) := rfl

theorem defaultExistingEntry_name (s : Scheme) (pc : PluginConfig) :
    (defaultExistingEntry s pc).name = pc.name := by
  unfold defaultExistingEntry
  split <;> rfl

theorem completionEntry_names (l : List String) (s : Scheme) (E : List String) :
    (l.filterMap (completionEntry s E)).map PluginConfig.name =
      l.filter (fun n => !E.contains n && (s.new (n ++ "Args")).isSome) := by
  induction l with
  | nil => rfl
  | cons x xs ih =>
    rw [List.filterMap_cons, List.filter_cons]
    by_cases hc : x ∈ E
    · simp [completionEntry, hc, ih]
    · cases hnew : s.new (x ++ "Args") with
      | none => simp [completionEntry, hc, hnew, ih]
      | some a => simp [completionEntry, hc, hnew, ih]

theorem existing_names (P : List PluginConfig) (z : String) :
    z ∈ P.foldl (fun s pc => strInsert pc.name s) [] ↔ z ∈ P.map PluginConfig.name := by
  rw [mem_foldl_strInsert PluginConfig.name]
  simp

/-! ## Claim C6: the volume-binding shape default -/

/-- Claim C6: for `SetDefaults_VolumeBindingArgs` on an argument object with empty
`Shape`: with the `VolumeCapacityPriority` gate disabled the shape stays empty;
with it enabled the shape becomes exactly the two points (0, 0) and
(100, `MaxCustomPriorityScore`); a non-empty shape is never modified. -/
theorem volumeBinding_shape_default (fg : Bool) (obj : VolumeBindingArgs) :
    (obj.shape = [] → fg = false → (SetDefaults_VolumeBindingArgs fg obj).shape = []) ∧
    (obj.shape = [] → fg = true →
      (SetDefaults_VolumeBindingArgs fg obj).shape =
        [{ utilization := 0, score := 0 },
         { utilization := 100, score := MaxCustomPriorityScore }]) ∧
    (obj.shape ≠ [] → (SetDefaults_VolumeBindingArgs fg obj).shape = obj.shape) := by
  obtain ⟨bts, sh⟩ := obj
  refine ⟨?_, ?_, ?_⟩
  · rintro rfl rfl
    simp [SetDefaults_VolumeBindingArgs, apply_ite]
  · rintro rfl rfl
    simp [SetDefaults_VolumeBindingArgs, apply_ite]
  · intro h
    simp only [SetDefaults_VolumeBindingArgs]
    have hlen : sh.length ≠ 0 := by simpa using h
    simp [apply_ite, hlen]

/-- Witness for C6 at the zero-value argument object with the gate enabled. -/
theorem volumeBinding_shape_default_witness :
    (SetDefaults_VolumeBindingArgs true {}).shape =
      [{ utilization := 0, score := 0 },
       { utilization := 100, score := MaxCustomPriorityScore }] :=
  (volumeBinding_shape_default true {}).2.1 rfl rfl

/-! ## Claim C7: weight normalization -/

/-- Claim C7: in both the balanced-allocation and the resources-fit defaulters, a
non-empty resource list is rewritten pointwise, each zero weight becoming 1 and
each non-zero weight staying unchanged (so a weight-0 entry becomes weight 1
while a weight-3 entry stays 3). -/
theorem resource_weight_normalization :
    (∀ obj : NodeResourcesBalancedAllocationArgs, obj.resources ≠ [] →
      (SetDefaults_NodeResourcesBalancedAllocationArgs obj).resources =
        obj.resources.map (fun r => if r.weight = 0 then { r with weight := 1 } else r)) ∧
    (∀ (obj : NodeResourcesFitArgs) (ss : ScoringStrategy),
      obj.scoringStrategy = some ss → ss.resources ≠ [] →
      (SetDefaults_NodeResourcesFitArgs obj).scoringStrategy =
        some { ss with resources :=
          ss.resources.map (fun r => if r.weight = 0 then { r with weight := 1 } else r) }) := by
  constructor
  · intro obj h
    obtain ⟨rs⟩ := obj
    have hlen : rs.length ≠ 0 := by simpa using h
    simp [SetDefaults_NodeResourcesBalancedAllocationArgs, hlen]
  · intro obj ss hss h
    obtain ⟨oss⟩ := obj
    cases hss
    have hlen : ss.resources.length ≠ 0 := by simpa using h
    simp [SetDefaults_NodeResourcesFitArgs, hlen]

/-- Witness for C7: a list with weights 0 and 3 becomes weights 1 and 3. -/
theorem resource_weight_normalization_witness :
    (SetDefaults_NodeResourcesBalancedAllocationArgs
        { resources := [{ name := "cpu", weight := 0 }, { name := "memory", weight := 3 }] }).resources =
      [{ name := "cpu", weight := 1 }, { name := "memory", weight := 3 }] :=
  (resource_weight_normalization.1
      { resources := [{ name := "cpu", weight := 0 }, { name := "memory", weight := 3 }] }
      (by decide)).trans (by decide)

/-! ## Claim C8: opaque entries untouched; registry misses skipped -/

/-- Claim C8: an existing entry whose `Args` object is `runtime.Unknown` is left
completely untouched, at its original position; and when the scheme has no
argument type for an enabled plugin name, no entry for that name is appended
(the per-name entry count is unchanged) — the name is skipped without error. -/
theorem opaque_untouched_and_miss_skipped
    (m : Option Plugins → Option Plugins → Option Plugins) (d : Option Plugins) (s : Scheme)
    (prof : KubeSchedulerProfile) :
    (∀ (j : Nat) (pc : PluginConfig) (raw : String),
      prof.pluginConfig[j]? = some pc → pc.args = some (ArgsObject.unknown raw) →
      (setDefaults_KubeSchedulerProfile m d s prof).pluginConfig[j]? = some pc) ∧
    (∀ name : String, s.new (name ++ "Args") = none →
      ((setDefaults_KubeSchedulerProfile m d s prof).pluginConfig.map PluginConfig.name).count name =
        (prof.pluginConfig.map PluginConfig.name).count name) := by
  constructor
  · intro j pc raw hj hu
    have hj' : j < prof.pluginConfig.length := by
      by_contra hge
      rw [List.getElem?_eq_none (by omega)] at hj
      exact Option.noConfusion hj
    rw [setProf_pluginConfig, List.getElem?_append, if_pos (by simpa using hj'),
      List.getElem?_map, hj]
    simp [defaultExistingEntry, hu]
  · intro name hnone
    rw [setProf_pluginConfig, List.map_append, List.count_append, completionEntry_names]
    have h1 : (prof.pluginConfig.map (defaultExistingEntry s)).map PluginConfig.name =
        prof.pluginConfig.map PluginConfig.name := by
      rw [List.map_map]
      exact List.map_congr_left fun pc _ => defaultExistingEntry_name s pc
    have h2 : name ∉ (pluginsNames (m d prof.plugins)).filter
        (fun n => !(prof.pluginConfig.foldl (fun s pc => strInsert pc.name s) []).contains n &&
          (s.new (n ++ "Args")).isSome) := by
      intro hmem
      have := (List.mem_filter.mp hmem).2
      rw [Bool.and_eq_true] at this
      rw [hnone] at this
      simp at this
    rw [h1, List.count_eq_zero_of_not_mem h2]
    omega

/-- Witness for C8: an opaque entry survives the pass unchanged in place. -/
theorem opaque_untouched_and_miss_skipped_witness :
    (setDefaults_KubeSchedulerProfile mergeKeepUser none (pluginArgConversionScheme true)
        { pluginConfig := [{ name := "Foo", args := some (ArgsObject.unknown "blob") }] }
      ).pluginConfig[0]? =
      some { name := "Foo", args := some (ArgsObject.unknown "blob") } :=
  (opaque_untouched_and_miss_skipped mergeKeepUser none (pluginArgConversionScheme true)
      { pluginConfig := [{ name := "Foo", args := some (ArgsObject.unknown "blob") }] }).1
    0 { name := "Foo", args := some (ArgsObject.unknown "blob") } "blob" rfl rfl

/-! ## Claim C10: positions preserved, appended entries sorted -/

/-- Claim C10: the profile defaulter keeps every pre-existing entry at its original
position with its original name, appends the newly created entries after them in
strictly increasing lexicographic name order, and `pluginsNames` itself returns
a sorted, duplicate-free name list — so the completion output order is a
deterministic function of the input. -/
theorem completion_order
    (m : Option Plugins → Option Plugins → Option Plugins) (d : Option Plugins) (s : Scheme)
    (prof : KubeSchedulerProfile) :
    (((setDefaults_KubeSchedulerProfile m d s prof).pluginConfig.take
        prof.pluginConfig.length).map PluginConfig.name =
      prof.pluginConfig.map PluginConfig.name) ∧
    ((((setDefaults_KubeSchedulerProfile m d s prof).pluginConfig.drop
        prof.pluginConfig.length).map PluginConfig.name).Sorted (· < ·)) ∧
    (∀ op : Option Plugins, (pluginsNames op).Sorted (· < ·) ∧ (pluginsNames op).Nodup) := by
  refine ⟨?_, ?_, fun op => ⟨pluginsNames_sorted op, pluginsNames_nodup op⟩⟩
  · rw [setProf_pluginConfig, List.take_left' (by simp), List.map_map]
    exact List.map_congr_left fun pc _ => defaultExistingEntry_name s pc
  · rw [setProf_pluginConfig, List.drop_left' (by simp), completionEntry_names]
    exact (pluginsNames_sorted _).filter _

/-! ## Claim C2: completeness of the plugin-config list -/

/-- Counterexample to claim C2 as stated: for a profile that enables the
out-of-tree plugin `"Foo"` (no registered argument kind) and also carries an
operator-supplied opaque config entry named `"Foo"`, the defaulted profile has
one `"Foo"` entry, not none, even though the registry reports no argument type. -/
theorem profile_completeness_counterexample :
    "Foo" ∈ pluginsNames ((setDefaults_KubeSchedulerProfile mergeKeepUser none
        (pluginArgConversionScheme true)
        { plugins := some { queueSort := { enabled := [{ name := "Foo" }] } },
          pluginConfig := [{ name := "Foo", args := some (ArgsObject.unknown "blob") }] }).plugins) ∧
    (pluginArgConversionScheme true).new ("Foo" ++ "Args") = none ∧
    ¬ (((setDefaults_KubeSchedulerProfile mergeKeepUser none (pluginArgConversionScheme true)
        { plugins := some { queueSort := { enabled := [{ name := "Foo" }] } },
          pluginConfig := [{ name := "Foo", args := some (ArgsObject.unknown "blob") }]
        }).pluginConfig.map PluginConfig.name).count "Foo" = 0) := by
  refine ⟨?_, rfl, ?_⟩ <;> decide

/-- Claim C2 (amended): after defaulting a profile whose plugin-config names are
unique, every plugin name enabled anywhere in the defaulted pipeline has exactly
one config entry when the registry resolves an argument kind for it; when the
registry reports no argument kind, the entry count for that name is exactly what
the operator supplied (zero when none was supplied). -/
theorem profile_completeness
    (m : Option Plugins → Option Plugins → Option Plugins) (d : Option Plugins) (s : Scheme)
    (prof : KubeSchedulerProfile)
    (hU : (prof.pluginConfig.map PluginConfig.name).Nodup)
    (name : String)
    (hn : name ∈ pluginsNames ((setDefaults_KubeSchedulerProfile m d s prof).plugins)) :
    ((s.new (name ++ "Args")).isSome →
      ((setDefaults_KubeSchedulerProfile m d s prof).pluginConfig.map PluginConfig.name).count
        name = 1) ∧
    (s.new (name ++ "Args") = none →
      ((setDefaults_KubeSchedulerProfile m d s prof).pluginConfig.map PluginConfig.name).count
        name = (prof.pluginConfig.map PluginConfig.name).count name) := by
  rw [setProf_plugins] at hn
  have h1 : (prof.pluginConfig.map (defaultExistingEntry s)).map PluginConfig.name =
      prof.pluginConfig.map PluginConfig.name := by
    rw [List.map_map]
    exact List.map_congr_left fun pc _ => defaultExistingEntry_name s pc
  have hcontIff :
      (prof.pluginConfig.foldl (fun s pc => strInsert pc.name s) []).contains name = true ↔
        name ∈ prof.pluginConfig.map PluginConfig.name :=
    (contains_iff_mem_strlist _ name).trans (existing_names _ name)
  constructor
  · intro hsome
    rw [setProf_pluginConfig, List.map_append, List.count_append, completionEntry_names, h1]
    by_cases hmem : name ∈ prof.pluginConfig.map PluginConfig.name
    · have c1 := List.count_eq_one_of_mem hU hmem
      have hnotf : name ∉ (pluginsNames (m d prof.plugins)).filter
          (fun n => !(prof.pluginConfig.foldl (fun s pc => strInsert pc.name s) []).contains n &&
            (s.new (n ++ "Args")).isSome) := by
        intro hf
        have hp := (List.mem_filter.mp hf).2
        rw [Bool.and_eq_true, Bool.not_eq_true'] at hp
        have hc := hcontIff.mpr hmem
        rw [hp.1] at hc
        exact Bool.noConfusion hc
      rw [List.count_eq_zero_of_not_mem hnotf]
      omega
    · have c1 := List.count_eq_zero_of_not_mem hmem
      have hcf : (prof.pluginConfig.foldl (fun s pc => strInsert pc.name s) []).contains name
          = false := by
        cases hb : (prof.pluginConfig.foldl (fun s pc => strInsert pc.name s) []).contains name
        · rfl
        · exact absurd (hcontIff.mp hb) hmem
      have hmemf : name ∈ (pluginsNames (m d prof.plugins)).filter
          (fun n => !(prof.pluginConfig.foldl (fun s pc => strInsert pc.name s) []).contains n &&
            (s.new (n ++ "Args")).isSome) := by
        rw [List.mem_filter]
        refine ⟨hn, ?_⟩
        rw [Bool.and_eq_true, Bool.not_eq_true']
        exact ⟨hcf, hsome⟩
      have c2 := List.count_eq_one_of_mem ((pluginsNames_nodup _).filter _) hmemf
      rw [c1, c2]
  · intro hnone
    rw [setProf_pluginConfig, List.map_append, List.count_append, completionEntry_names, h1]
    have hnotf : name ∉ (pluginsNames (m d prof.plugins)).filter
        (fun n => !(prof.pluginConfig.foldl (fun s pc => strInsert pc.name s) []).contains n &&
          (s.new (n ++ "Args")).isSome) := by
      intro hf
      have hp := (List.mem_filter.mp hf).2
      rw [Bool.and_eq_true, hnone] at hp
      simp at hp
    rw [List.count_eq_zero_of_not_mem hnotf]
    omega

/-- Witness for the amended C2: an enabled in-tree plugin with no operator config
receives exactly one appended entry. -/
theorem profile_completeness_witness :
    ((setDefaults_KubeSchedulerProfile mergeKeepUser none (pluginArgConversionScheme true)
        { plugins := some { score := { enabled := [{ name := "InterPodAffinity" }] } } }
      ).pluginConfig.map PluginConfig.name).count "InterPodAffinity" = 1 :=
  (profile_completeness mergeKeepUser none (pluginArgConversionScheme true)
      { plugins := some { score := { enabled := [{ name := "InterPodAffinity" }] } } }
      (by simp) "InterPodAffinity" (by decide)).1 (by decide)

/-! ## Claim C9: merge-collaborator errors are fatal and propagated verbatim -/

theorem mapExcept_ok {α β ε : Type} (f : α → Except ε β) (g : α → β)
    (hf : ∀ x, f x = Except.ok (g x)) (l : List α) :
    mapExcept f l = Except.ok (l.map g) := by
  induction l with
  | nil => rfl
  | cons x xs ih => simp [mapExcept, hf, ih]

theorem profileE_ok
    (m : Option Plugins → Option Plugins → Option Plugins)
    (mE : Option Plugins → Option Plugins → Except String (Option Plugins))
    (d : Option Plugins) (s : Scheme)
    (hok : ∀ a b, mE a b = Except.ok (m a b)) (prof : KubeSchedulerProfile) :
    setDefaults_KubeSchedulerProfileE mE d s prof =
      Except.ok (setDefaults_KubeSchedulerProfile m d s prof) := by
  unfold setDefaults_KubeSchedulerProfileE
  rw [hok]
  rfl

theorem ensure_nonempty (obj : KubeSchedulerConfiguration) :
    (ensureProfilesStep obj).profiles ≠ [] := by
  rw [ensureProfilesStep_eq]
  by_cases h : obj.profiles.length = 0
  · simp [h]
  · simp only [if_neg h]
    intro hnil
    rw [hnil] at h
    exact h rfl

theorem nameStep_nonempty (obj : KubeSchedulerConfiguration) (h : obj.profiles ≠ []) :
    (defaultSchedulerNameStep obj).profiles ≠ [] := by
  rw [defaultSchedulerNameStep_profiles]
  rcases hp : obj.profiles with _ | ⟨a, rest⟩
  · exact absurd hp h
  · cases rest
    · by_cases hb : a.schedulerName = none <;> simp [hb]
    · simp

theorem profileE_error
    (mE : Option Plugins → Option Plugins → Except String (Option Plugins))
    (d : Option Plugins) (s : Scheme) (prof : KubeSchedulerProfile) (e : String)
    (h : mE d prof.plugins = Except.error e) :
    setDefaults_KubeSchedulerProfileE mE d s prof = Except.error e := by
  unfold setDefaults_KubeSchedulerProfileE
  rw [h]

theorem profileE_isOk
    (mE : Option Plugins → Option Plugins → Except String (Option Plugins))
    (d : Option Plugins) (s : Scheme) (prof : KubeSchedulerProfile) (pl : Option Plugins)
    (h : mE d prof.plugins = Except.ok pl) :
    ∃ y, setDefaults_KubeSchedulerProfileE mE d s prof = Except.ok y := by
  unfold setDefaults_KubeSchedulerProfileE
  rw [h]
  exact ⟨_, rfl⟩

theorem mapExcept_error {α β ε : Type} (f : α → Except ε β) (pre : List α) (x : α)
    (post : List α) (e : ε) (hpre : ∀ q ∈ pre, ∃ y, f q = Except.ok y)
    (hx : f x = Except.error e) :
    mapExcept f (pre ++ x :: post) = Except.error e := by
  induction pre with
  | nil => simp [mapExcept, hx]
  | cons a t ih =>
    obtain ⟨y, hy⟩ := hpre a (List.mem_cons_self a t)
    have ih2 := ih fun q hq => hpre q (List.mem_cons_of_mem a hq)
    simp [mapExcept, hy, ih2]

/-- Claim C9: with the merge collaborator's error channel made explicit, a
non-failing merge makes the fallible pass agree with the pure pass and surface
no error; and whenever the loop reaches a profile whose merge fails (the merges
before it having succeeded), the whole pass aborts with that profile's error
propagated verbatim, regardless of the profiles after it — no per-profile
recovery. -/
theorem merge_error_propagation
    (m : Option Plugins → Option Plugins → Option Plugins)
    (mE : Option Plugins → Option Plugins → Except String (Option Plugins))
    (d : Option Plugins) (s : Scheme) (obj : KubeSchedulerConfiguration) :
    ((∀ a b, mE a b = Except.ok (m a b)) →
      SetDefaults_KubeSchedulerConfigurationE mE d s obj =
        Except.ok (SetDefaults_KubeSchedulerConfiguration m d s obj)) ∧
    (∀ (e : String) (pre : List KubeSchedulerProfile) (p : KubeSchedulerProfile)
        (post : List KubeSchedulerProfile),
      (defaultSchedulerNameStep (ensureProfilesStep (defaultParallelismStep obj))).profiles =
        pre ++ p :: post →
      (∀ q ∈ pre, ∃ pl, mE d q.plugins = Except.ok pl) →
      mE d p.plugins = Except.error e →
      SetDefaults_KubeSchedulerConfigurationE mE d s obj = Except.error e) := by
  constructor
  · intro hok
    simp only [SetDefaults_KubeSchedulerConfigurationE, SetDefaults_KubeSchedulerConfiguration]
    rw [mapExcept_ok _ _ (profileE_ok m mE d s hok)]
    rfl
  · intro e pre p post hL hpre hp
    simp only [SetDefaults_KubeSchedulerConfigurationE]
    rw [hL, mapExcept_error (setDefaults_KubeSchedulerProfileE mE d s) pre p post e
      (fun q hq => (hpre q hq).elim fun pl hpl => profileE_isOk mE d s q pl hpl)
      (profileE_error mE d s p e hp)]

/-- A merge collaborator for the C9 witness: it fails on exactly one pipeline (the
one enabling plugin "X") and succeeds, keeping the user pipeline, on every other. -/
def mergeFailOnX : Option Plugins → Option Plugins → Except String (Option Plugins) :=
  fun _ x =>
    if x = some { queueSort := { enabled := [{ name := "X" }] } } then
      Except.error "merge failed"
    else Except.ok x

/-- Witness for C9: with three profiles of which only the middle one's merge fails,
the whole pass aborts with that error verbatim — including the profile after it. -/
theorem merge_error_propagation_witness :
    SetDefaults_KubeSchedulerConfigurationE mergeFailOnX none (pluginArgConversionScheme true)
        { profiles := [{ schedulerName := some "a" },
            { schedulerName := some "b",
              plugins := some { queueSort := { enabled := [{ name := "X" }] } } },
            { schedulerName := some "c" }] } =
      Except.error "merge failed" :=
  (merge_error_propagation mergeKeepUser mergeFailOnX none (pluginArgConversionScheme true)
      { profiles := [{ schedulerName := some "a" },
          { schedulerName := some "b",
            plugins := some { queueSort := { enabled := [{ name := "X" }] } } },
          { schedulerName := some "c" }] }).2
    "merge failed"
    [{ schedulerName := some "a" }]
    { schedulerName := some "b",
      plugins := some { queueSort := { enabled := [{ name := "X" }] } } }
    [{ schedulerName := some "c" }]
    (by decide)
    (fun q hq => by
      rw [List.mem_singleton] at hq
      subst hq
      exact ⟨none, rfl⟩)
    rfl

/-! ## Claim C1: idempotence. Each registered argument defaulter is an
idempotent fill-in, so the concrete scheme's `Default` is idempotent. -/

theorem defaultPreemption_idem (a : DefaultPreemptionArgs) :
    SetDefaults_DefaultPreemptionArgs (SetDefaults_DefaultPreemptionArgs a) =
      SetDefaults_DefaultPreemptionArgs a := by
  obtain ⟨x, y⟩ := a
  cases x <;> cases y <;> simp [SetDefaults_DefaultPreemptionArgs]

theorem interPodAffinity_idem (a : InterPodAffinityArgs) :
    SetDefaults_InterPodAffinityArgs (SetDefaults_InterPodAffinityArgs a) =
      SetDefaults_InterPodAffinityArgs a := by
  obtain ⟨x⟩ := a
  cases x <;> simp [SetDefaults_InterPodAffinityArgs]

theorem volumeBinding_idem (fg : Bool) (a : VolumeBindingArgs) :
    SetDefaults_VolumeBindingArgs fg (SetDefaults_VolumeBindingArgs fg a) =
      SetDefaults_VolumeBindingArgs fg a := by
  obtain ⟨bts, sh⟩ := a
  cases bts <;> cases sh <;> cases fg <;> simp [SetDefaults_VolumeBindingArgs]

theorem normWeight_map_idem (l : List ResourceSpec) :
    ((l.map (fun r => if r.weight = 0 then { r with weight := 1 } else r)).map
        (fun r => if r.weight = 0 then { r with weight := 1 } else r)) =
      l.map (fun r => if r.weight = 0 then { r with weight := 1 } else r) := by
  rw [List.map_map]
  apply List.map_congr_left
  intro r _
  by_cases h : r.weight = 0 <;> simp [Function.comp, h]

theorem balancedAllocation_idem (a : NodeResourcesBalancedAllocationArgs) :
    SetDefaults_NodeResourcesBalancedAllocationArgs
        (SetDefaults_NodeResourcesBalancedAllocationArgs a) =
      SetDefaults_NodeResourcesBalancedAllocationArgs a := by
  obtain ⟨rs⟩ := a
  cases rs with
  | nil => simp [SetDefaults_NodeResourcesBalancedAllocationArgs, defaultResourceSpec]
  | cons r rest =>
    have step : ∀ rs : List ResourceSpec, rs ≠ [] →
        SetDefaults_NodeResourcesBalancedAllocationArgs { resources := rs } =
          { resources := rs.map (fun r => if r.weight = 0 then { r with weight := 1 } else r) } := by
      intro rs h
      simp [SetDefaults_NodeResourcesBalancedAllocationArgs, List.length_eq_zero, h]
    rw [step (r :: rest) (by simp), step _ (by simp), normWeight_map_idem]

theorem podTopologySpread_idem (a : PodTopologySpreadArgs) :
    SetDefaults_PodTopologySpreadArgs (SetDefaults_PodTopologySpreadArgs a) =
      SetDefaults_PodTopologySpreadArgs a := by
  obtain ⟨dt⟩ := a
  by_cases h : dt = "" <;> simp [SetDefaults_PodTopologySpreadArgs, SystemDefaulting, h]

theorem nodeResourcesFit_idem (a : NodeResourcesFitArgs) :
    SetDefaults_NodeResourcesFitArgs (SetDefaults_NodeResourcesFitArgs a) =
      SetDefaults_NodeResourcesFitArgs a := by
  obtain ⟨oss⟩ := a
  cases oss with
  | none =>
    simp [SetDefaults_NodeResourcesFitArgs, defaultResourceSpec, normWeight_map_idem]
  | some ss =>
    obtain ⟨t, rs⟩ := ss
    have step : ∀ (t : String) (rs : List ResourceSpec), rs ≠ [] →
        SetDefaults_NodeResourcesFitArgs { scoringStrategy := some { type := t, resources := rs } } =
          { scoringStrategy := some { type := t, resources := rs.map (fun r => if r.weight = 0 then { r with weight := 1 } else r) } } := by
      intro t rs h
      simp [SetDefaults_NodeResourcesFitArgs, List.length_eq_zero, h]
    cases rs with
    | nil => simp [SetDefaults_NodeResourcesFitArgs, defaultResourceSpec, normWeight_map_idem]
    | cons r rest => rw [step t (r :: rest) (by simp), step t _ (by simp), normWeight_map_idem]

theorem payloadDefault_idem (fg : Bool) (p : ArgsPayload) :
    payloadDefault fg (payloadDefault fg p) = payloadDefault fg p := by
  cases p <;>
    simp [payloadDefault, defaultPreemption_idem, interPodAffinity_idem, volumeBinding_idem,
      balancedAllocation_idem, podTopologySpread_idem, nodeResourcesFit_idem]

theorem schemeDefault_idem (fg : Bool) (a : ArgsObject) :
    schemeDefault fg (schemeDefault fg a) = schemeDefault fg a := by
  cases a <;> simp [schemeDefault, payloadDefault_idem]

theorem defaultExistingEntry_idem (fg : Bool) (pc : PluginConfig) :
    defaultExistingEntry (pluginArgConversionScheme fg)
        (defaultExistingEntry (pluginArgConversionScheme fg) pc) =
      defaultExistingEntry (pluginArgConversionScheme fg) pc := by
  obtain ⟨n, args⟩ := pc
  cases args with
  | none => rfl
  | some a =>
    cases a with
    | unknown raw => rfl
    | typed k pl =>
      simp [defaultExistingEntry, pluginArgConversionScheme, schemeDefault, payloadDefault_idem]

theorem completionEntry_fix (fg : Bool) (E : List String) (n : String) (pc : PluginConfig)
    (h : completionEntry (pluginArgConversionScheme fg) E n = some pc) :
    defaultExistingEntry (pluginArgConversionScheme fg) pc = pc := by
  unfold completionEntry at h
  by_cases hc : E.contains n
  · rw [if_pos hc] at h
    exact Option.noConfusion h
  · rw [if_neg hc] at h
    cases hnew : (pluginArgConversionScheme fg).new (n ++ "Args") with
    | none => rw [hnew] at h; exact Option.noConfusion h
    | some a0 =>
      rw [hnew] at h
      have hpc : pc = { name := n, args := some (ArgsObject.setGroupVersionKind (n ++ "Args")
          ((pluginArgConversionScheme fg).defaultFn a0)) } := (Option.some_injective _ h).symm
      subst hpc
      cases a0 with
      | unknown raw => rfl
      | typed k pl =>
        simp [defaultExistingEntry, pluginArgConversionScheme, schemeDefault,
          ArgsObject.setGroupVersionKind, payloadDefault_idem]

theorem profile_ext (a b : KubeSchedulerProfile)
    (h1 : a.schedulerName = b.schedulerName) (h2 : a.plugins = b.plugins)
    (h3 : a.pluginConfig = b.pluginConfig) : a = b := by
  cases a
  cases b
  simp_all

theorem setProf_names
    (m : Option Plugins → Option Plugins → Option Plugins) (d : Option Plugins) (s : Scheme)
    (prof : KubeSchedulerProfile) :
    (setDefaults_KubeSchedulerProfile m d s prof).pluginConfig.map PluginConfig.name =
      prof.pluginConfig.map PluginConfig.name ++
        (pluginsNames (m d prof.plugins)).filter
          (fun n => !(prof.pluginConfig.foldl (fun s pc => strInsert pc.name s) []).contains n &&
            (s.new (n ++ "Args")).isSome) := by
  rw [setProf_pluginConfig, List.map_append, completionEntry_names]
  congr 1
  rw [List.map_map]
  exact List.map_congr_left fun pc _ => defaultExistingEntry_name s pc

/-- The profile defaulter is idempotent (for the concrete scheme), provided the
merge collaborator is idempotent on an already-merged pipeline. -/
theorem setProf_idem (fg : Bool)
    (m : Option Plugins → Option Plugins → Option Plugins) (d : Option Plugins)
    (hm : ∀ x, m d (m d x) = m d x) (prof : KubeSchedulerProfile) :
    setDefaults_KubeSchedulerProfile m d (pluginArgConversionScheme fg)
        (setDefaults_KubeSchedulerProfile m d (pluginArgConversionScheme fg) prof) =
      setDefaults_KubeSchedulerProfile m d (pluginArgConversionScheme fg) prof := by
  apply profile_ext
  · rfl
  · simp only [setProf_plugins]
    exact hm _
  · have hD : (setDefaults_KubeSchedulerProfile m d (pluginArgConversionScheme fg)
        prof).pluginConfig.map (defaultExistingEntry (pluginArgConversionScheme fg)) =
        (setDefaults_KubeSchedulerProfile m d (pluginArgConversionScheme fg) prof).pluginConfig := by
      rw [setProf_pluginConfig, List.map_append]
      congr 1
      · rw [List.map_map]
        exact List.map_congr_left fun pc _ => defaultExistingEntry_idem fg pc
      · conv_rhs => rw [← List.map_id ((pluginsNames (m d prof.plugins)).filterMap
          (completionEntry (pluginArgConversionScheme fg)
            (prof.pluginConfig.foldl (fun s pc => strInsert pc.name s) [])))]
        refine List.map_congr_left fun pc hpc => ?_
        rcases List.mem_filterMap.mp hpc with ⟨n, _, he⟩
        exact completionEntry_fix fg _ n pc he
    have hA2 : (pluginsNames (m d (setDefaults_KubeSchedulerProfile m d
          (pluginArgConversionScheme fg) prof).plugins)).filterMap
        (completionEntry (pluginArgConversionScheme fg)
          ((setDefaults_KubeSchedulerProfile m d (pluginArgConversionScheme fg)
            prof).pluginConfig.foldl (fun s pc => strInsert pc.name s) [])) = [] := by
      rw [List.filterMap_eq_nil_iff]
      intro n hn
      rw [setProf_plugins, hm] at hn
      have hE2c : ∀ z, z ∈ (setDefaults_KubeSchedulerProfile m d (pluginArgConversionScheme fg)
          prof).pluginConfig.map PluginConfig.name →
          ((setDefaults_KubeSchedulerProfile m d (pluginArgConversionScheme fg)
            prof).pluginConfig.foldl (fun s pc => strInsert pc.name s) []).contains z = true :=
        fun z hz => (contains_iff_mem_strlist _ z).mpr ((existing_names _ z).mpr hz)
      by_cases hmem : n ∈ prof.pluginConfig.map PluginConfig.name
      · unfold completionEntry
        rw [if_pos (hE2c n (by rw [setProf_names]; exact List.mem_append.mpr (Or.inl hmem)))]
      · cases hnew : (pluginArgConversionScheme fg).new (n ++ "Args") with
        | none =>
          cases hc : ((setDefaults_KubeSchedulerProfile m d (pluginArgConversionScheme fg)
              prof).pluginConfig.foldl (fun s pc => strInsert pc.name s) []).contains n <;>
            simp [completionEntry, hc, hnew]
        | some a0 =>
          have hcf : (prof.pluginConfig.foldl
              (fun s pc => strInsert pc.name s) []).contains n = false := by
            cases hb : (prof.pluginConfig.foldl (fun s pc => strInsert pc.name s) []).contains n
            · rfl
            · exact absurd ((existing_names _ n).mp ((contains_iff_mem_strlist _ n).mp hb)) hmem
          have hf : n ∈ (pluginsNames (m d prof.plugins)).filter
              (fun x => !(prof.pluginConfig.foldl (fun s pc => strInsert pc.name s) []).contains x &&
                ((pluginArgConversionScheme fg).new (x ++ "Args")).isSome) := by
            rw [List.mem_filter]
            refine ⟨hn, ?_⟩
            rw [Bool.and_eq_true, Bool.not_eq_true']
            exact ⟨hcf, by rw [hnew]; rfl⟩
          unfold completionEntry
          rw [if_pos (hE2c n (by rw [setProf_names]; exact List.mem_append.mpr (Or.inr hf)))]
    conv_lhs => rw [setProf_pluginConfig]
    rw [hD, hA2, List.append_nil]

theorem config_ext (a b : KubeSchedulerConfiguration)
    (h1 : a.parallelism = b.parallelism) (h2 : a.leaderElection = b.leaderElection)
    (h3 : a.clientConnection = b.clientConnection)
    (h4 : a.percentageOfNodesToScore = b.percentageOfNodesToScore)
    (h5 : a.podInitialBackoffSeconds = b.podInitialBackoffSeconds)
    (h6 : a.podMaxBackoffSeconds = b.podMaxBackoffSeconds)
    (h7 : a.profiles = b.profiles)
    (h8 : a.enableProfiling = b.enableProfiling)
    (h9 : a.enableContentionProfiling = b.enableContentionProfiling) : a = b := by
  cases a
  cases b
  simp_all

theorem recommended_resourceNamespace (le : LeaderElectionConfiguration) :
    (RecommendedDefaultLeaderElectionConfiguration le).resourceNamespace =
      le.resourceNamespace := by
  simp only [RecommendedDefaultLeaderElectionConfiguration]
  split <;> split <;> split <;> split <;> rfl

theorem recommended_resourceName (le : LeaderElectionConfiguration) :
    (RecommendedDefaultLeaderElectionConfiguration le).resourceName = le.resourceName := by
  simp only [RecommendedDefaultLeaderElectionConfiguration]
  split <;> split <;> split <;> split <;> rfl

theorem recommended_eq (le : LeaderElectionConfiguration) :
    RecommendedDefaultLeaderElectionConfiguration le =
      { le with
        leaseDuration := if le.leaseDuration = 0 then 15 else le.leaseDuration,
        renewDeadline := if le.renewDeadline = 0 then 10 else le.renewDeadline,
        retryPeriod := if le.retryPeriod = 0 then 2 else le.retryPeriod,
        leaderElect := if le.leaderElect = none then some true else le.leaderElect } := by
  by_cases h1 : le.leaseDuration = 0 <;> by_cases h2 : le.renewDeadline = 0 <;>
    by_cases h3 : le.retryPeriod = 0 <;> by_cases h4 : le.leaderElect = none <;>
    simp [RecommendedDefaultLeaderElectionConfiguration, h1, h2, h3, h4]

theorem recommended_idem (le : LeaderElectionConfiguration) :
    RecommendedDefaultLeaderElectionConfiguration
        (RecommendedDefaultLeaderElectionConfiguration le) =
      RecommendedDefaultLeaderElectionConfiguration le := by
  by_cases h1 : le.leaseDuration = 0 <;> by_cases h2 : le.renewDeadline = 0 <;>
    by_cases h3 : le.retryPeriod = 0 <;> by_cases h4 : le.leaderElect = none <;>
    simp [recommended_eq, h1, h2, h3, h4]

theorem nameStep_singleton_named (obj : KubeSchedulerConfiguration) (q : KubeSchedulerProfile)
    (h : (defaultSchedulerNameStep obj).profiles = [q]) : q.schedulerName ≠ none := by
  rw [defaultSchedulerNameStep_profiles] at h
  rcases hp : obj.profiles with _ | ⟨a, _ | ⟨b, rest⟩⟩ <;> rw [hp] at h
  · simp at h
  · by_cases hb : a.schedulerName = none
    · simp only [if_pos hb] at h
      have : ({ a with schedulerName := some DefaultSchedulerName } :
          KubeSchedulerProfile) = q := by
        simpa using h
      rw [← this]
      simp
    · simp only [if_neg hb] at h
      have : a = q := by simpa using h
      rw [← this]
      exact hb
  · simp at h

/-- Claim C1: the top-level defaulting pass (over the concrete argument scheme) is
idempotent, assuming the external merge collaborator is idempotent on an
already-merged pipeline, as the spec contracts. -/
theorem SetDefaults_KubeSchedulerConfiguration_idempotent (fg : Bool)
    (m : Option Plugins → Option Plugins → Option Plugins) (d : Option Plugins)
    (hm : ∀ x, m d (m d x) = m d x) (obj : KubeSchedulerConfiguration) :
    SetDefaults_KubeSchedulerConfiguration m d (pluginArgConversionScheme fg)
        (SetDefaults_KubeSchedulerConfiguration m d (pluginArgConversionScheme fg) obj) =
      SetDefaults_KubeSchedulerConfiguration m d (pluginArgConversionScheme fg) obj := by
  have hne : (SetDefaults_KubeSchedulerConfiguration m d
      (pluginArgConversionScheme fg) obj).profiles ≠ [] := by
    have h0 := nameStep_nonempty (ensureProfilesStep (defaultParallelismStep obj))
      (ensure_nonempty _)
    intro hnil
    rw [setDefaults_profiles] at hnil
    exact h0 (List.map_eq_nil_iff.mp hnil)
  apply config_ext
  · simp only [setDefaults_parallelism]
    by_cases h : obj.parallelism = none <;> simp [h]
  · simp only [setDefaults_leaderElection]
    have hlock : (RecommendedDefaultLeaderElectionConfiguration
        { obj.leaderElection with
          resourceLock := if obj.leaderElection.resourceLock = "" then "leases"
            else obj.leaderElection.resourceLock,
          resourceNamespace := if obj.leaderElection.resourceNamespace = ""
            then SchedulerDefaultLockObjectNamespace else obj.leaderElection.resourceNamespace,
          resourceName := if obj.leaderElection.resourceName = ""
            then SchedulerDefaultLockObjectName
            else obj.leaderElection.resourceName }).resourceLock ≠ "" := by
      rw [recommended_resourceLock]
      by_cases h : obj.leaderElection.resourceLock = "" <;> simp [h]
    have hns : (RecommendedDefaultLeaderElectionConfiguration
        { obj.leaderElection with
          resourceLock := if obj.leaderElection.resourceLock = "" then "leases"
            else obj.leaderElection.resourceLock,
          resourceNamespace := if obj.leaderElection.resourceNamespace = ""
            then SchedulerDefaultLockObjectNamespace else obj.leaderElection.resourceNamespace,
          resourceName := if obj.leaderElection.resourceName = ""
            then SchedulerDefaultLockObjectName
            else obj.leaderElection.resourceName }).resourceNamespace ≠ "" := by
      rw [recommended_resourceNamespace]
      by_cases h : obj.leaderElection.resourceNamespace = "" <;>
        simp [h, SchedulerDefaultLockObjectNamespace]
    have hname : (RecommendedDefaultLeaderElectionConfiguration
        { obj.leaderElection with
          resourceLock := if obj.leaderElection.resourceLock = "" then "leases"
            else obj.leaderElection.resourceLock,
          resourceNamespace := if obj.leaderElection.resourceNamespace = ""
            then SchedulerDefaultLockObjectNamespace else obj.leaderElection.resourceNamespace,
          resourceName := if obj.leaderElection.resourceName = ""
            then SchedulerDefaultLockObjectName
            else obj.leaderElection.resourceName }).resourceName ≠ "" := by
      rw [recommended_resourceName]
      by_cases h : obj.leaderElection.resourceName = "" <;>
        simp [h, SchedulerDefaultLockObjectName]
    rw [if_neg hlock, if_neg hns, if_neg hname]
    exact recommended_idem _
  · simp only [setDefaults_clientConnection]
    by_cases h1 : obj.clientConnection.contentType = "" <;>
      by_cases h2 : obj.clientConnection.qps = 0 <;>
      by_cases h3 : obj.clientConnection.burst = 0 <;>
      simp [h1, h2, h3]
  · simp only [setDefaults_percentage]
    by_cases h : obj.percentageOfNodesToScore = none <;> simp [h]
  · simp only [setDefaults_podInitialBackoff]
    by_cases h : obj.podInitialBackoffSeconds = none <;> simp [h]
  · simp only [setDefaults_podMaxBackoff]
    by_cases h : obj.podMaxBackoffSeconds = none <;> simp [h]
  · -- profiles
    have hpar : (defaultParallelismStep (SetDefaults_KubeSchedulerConfiguration m d
        (pluginArgConversionScheme fg) obj)).profiles =
        (SetDefaults_KubeSchedulerConfiguration m d
          (pluginArgConversionScheme fg) obj).profiles := by
      rw [defaultParallelismStep_eq]
    have hens : (ensureProfilesStep (defaultParallelismStep
        (SetDefaults_KubeSchedulerConfiguration m d
          (pluginArgConversionScheme fg) obj))).profiles =
        (SetDefaults_KubeSchedulerConfiguration m d
          (pluginArgConversionScheme fg) obj).profiles := by
      rw [ensureProfilesStep_eq]
      simp only [hpar]
      simp [List.length_eq_zero, hne]
    have hnames : (defaultSchedulerNameStep (ensureProfilesStep (defaultParallelismStep
        (SetDefaults_KubeSchedulerConfiguration m d
          (pluginArgConversionScheme fg) obj)))).profiles =
        (SetDefaults_KubeSchedulerConfiguration m d
          (pluginArgConversionScheme fg) obj).profiles := by
      rw [defaultSchedulerNameStep_profiles, hens]
      rcases hL : (SetDefaults_KubeSchedulerConfiguration m d
          (pluginArgConversionScheme fg) obj).profiles with _ | ⟨q, _ | ⟨q2, rest⟩⟩
      · rfl
      · have hq : q.schedulerName ≠ none := by
          have hL2 := hL
          rw [setDefaults_profiles] at hL2
          rcases hL0 : (defaultSchedulerNameStep (ensureProfilesStep
              (defaultParallelismStep obj))).profiles with _ | ⟨a, t⟩
          · rw [hL0] at hL2
            exact absurd hL2 (by simp)
          · rw [hL0] at hL2
            simp only [List.map_cons] at hL2
            injection hL2 with ha ht
            have ht0 : t = [] := List.map_eq_nil_iff.mp ht
            subst ht0
            rw [← ha, setDefaults_KubeSchedulerProfile_schedulerName]
            exact nameStep_singleton_named _ a hL0
        simp [hq]
      · rfl
    conv_lhs => rw [setDefaults_profiles]
    rw [hnames]
    rw [setDefaults_profiles, List.map_map]
    exact List.map_congr_left fun p _ => setProf_idem fg m d hm p
  · simp only [setDefaults_enableProfiling]
    by_cases h : obj.enableProfiling = none <;> simp [h]
  · simp only [setDefaults_enableContentionProfiling, setDefaults_enableProfiling]
    rcases hep : obj.enableProfiling with _ | b
    · by_cases hecp : obj.enableContentionProfiling = none <;> simp [hep, hecp]
    · cases b <;> by_cases hecp : obj.enableContentionProfiling = none <;> simp [hep, hecp]

/-- Witness for C1: the identity-keeping merge is idempotent on merged pipelines, and
the pass is idempotent on the empty configuration under it. -/
theorem SetDefaults_KubeSchedulerConfiguration_idempotent_witness :
    SetDefaults_KubeSchedulerConfiguration mergeKeepUser none (pluginArgConversionScheme true)
        (SetDefaults_KubeSchedulerConfiguration mergeKeepUser none
          (pluginArgConversionScheme true) {}) =
      SetDefaults_KubeSchedulerConfiguration mergeKeepUser none
        (pluginArgConversionScheme true) {} :=
  SetDefaults_KubeSchedulerConfiguration_idempotent true mergeKeepUser none (fun _ => rfl) {}

end KubeSchedV1
